import Mathlib

/-!
# Verification of the DevOpsTool provider-aggregation core

A shallow embedding, in Lean 4, of the account registry, TTL cache, AWS
Signature-Version-4 signer, Google JWT assembly, packed record-id codecs,
multi-account aggregation, and error classification of the DevOpsTool
repository, together with theorems settling the specification claims
about these components.

JavaScript strings are modelled as `List Char`, byte sequences as
`List Nat` (each element below 256), machine words as `Nat` with explicit
reduction modulo 2^32, and external effects (secret storage, HTTP, the
clock, vendor JSON/XML payload parsing, RSA signing) as explicit
environment parameters.  All definitions are structurally recursive and
executable, so every theorem can be instantiated on concrete inputs by
kernel evaluation.
-/

namespace DevOpsTool

/-- JS strings are modelled as lists of characters. -/
abbrev Str := List Char

/-- Character list of a Lean string literal. -/
def str (s : String) : Str := s.data

/-- Byte sequences are lists of naturals below 256. -/
abbrev Bytes := List Nat

/-! ## SHA-256 (the `crypto.createHash('sha256')` calls of the signer) -/

/-- Truncation to a 32-bit word. -/
def w32 (n : Nat) : Nat := n % 4294967296

/-- Right rotation of a 32-bit word (rotation amount between 1 and 31). -/
def rotr (x n : Nat) : Nat := w32 ((x >>> n) ||| (x <<< (32 - n)))

/-- Bitwise complement of a 32-bit word. -/
def wnot (x : Nat) : Nat := x ^^^ 4294967295

/-- SHA-256 `Ch` function. -/
def shaCh (x y z : Nat) : Nat := (x &&& y) ^^^ (wnot x &&& z)

/-- SHA-256 `Maj` function. -/
def shaMaj (x y z : Nat) : Nat := (x &&& y) ^^^ (x &&& z) ^^^ (y &&& z)

/-- SHA-256 `Σ₀`. -/
def bsig0 (x : Nat) : Nat := rotr x 2 ^^^ rotr x 13 ^^^ rotr x 22

/-- SHA-256 `Σ₁`. -/
def bsig1 (x : Nat) : Nat := rotr x 6 ^^^ rotr x 11 ^^^ rotr x 25

/-- SHA-256 `σ₀`. -/
def ssig0 (x : Nat) : Nat := rotr x 7 ^^^ rotr x 18 ^^^ (x >>> 3)

/-- SHA-256 `σ₁`. -/
def ssig1 (x : Nat) : Nat := rotr x 17 ^^^ rotr x 19 ^^^ (x >>> 10)

/-- The 64 SHA-256 round constants. -/
def sha256K : List Nat :=
  [1116352408, 1899447441, 3049323471, 3921009573, 961987163,
   1508970993, 2453635748, 2870763221, 3624381080, 310598401,
   607225278, 1426881987, 1925078388, 2162078206, 2614888103,
   3248222580, 3835390401, 4022224774, 264347078, 604807628,
   770255983, 1249150122, 1555081692, 1996064986, 2554220882,
   2821834349, 2952996808, 3210313671, 3336571891, 3584528711,
   113926993, 338241895, 666307205, 773529912, 1294757372,
   1396182291, 1695183700, 1986661051, 2177026350, 2456956037,
   2730485921, 2820302411, 3259730800, 3345764771, 3516065817,
   3600352804, 4094571909, 275423344, 430227734, 506948616,
   659060556, 883997877, 958139571, 1322822218, 1537002063,
   1747873779, 1955562222, 2024104815, 2227730452, 2361852424,
   2428436474, 2756734187, 3204031479, 3329325298]

/-- The eight SHA-256 initial hash values. -/
def sha256Init : List Nat :=
  [1779033703, 3144134277, 1013904242, 2773480762, 1359893119,
   2600822924, 528734635, 1541459225]

/-- Group bytes into big-endian 32-bit words. -/
def toWords : Bytes → List Nat
  | b1 :: b2 :: b3 :: b4 :: rest => (((b1 * 256 + b2) * 256 + b3) * 256 + b4) :: toWords rest
  | _ => []

/-- Extend a message schedule, kept in reverse (most recent word first), by the
given number of words: `W[i] = σ₁(W[i-2]) + W[i-7] + σ₀(W[i-15]) + W[i-16]`. -/
def extendScheduleRev : List Nat → Nat → List Nat
  | ws, 0 => ws
  | ws, Nat.succ k =>
    let w := w32 (ssig1 (ws.getD 1 0) + ws.getD 6 0 + ssig0 (ws.getD 14 0) + ws.getD 15 0)
    extendScheduleRev (w :: ws) k

/-- Extend a 16-word message schedule to the full 64 words. -/
def extendSchedule (ws : List Nat) (k : Nat) : List Nat :=
  (extendScheduleRev ws.reverse k).reverse

/-- One SHA-256 compression round on the eight-word state. -/
def shaRound (st : List Nat) (kw : Nat) : List Nat :=
  match st with
  | [a, b, c, d, e, f, g, h] =>
    let t1 := w32 (h + bsig1 e + shaCh e f g + kw)
    let t2 := w32 (bsig0 a + shaMaj a b c)
    [w32 (t1 + t2), a, b, c, w32 (d + t1), e, f, g]
  | st => st

/-- Compress one 64-byte block into the running hash state. -/
def shaBlock (h : List Nat) (block : Bytes) : List Nat :=
  let ws := extendSchedule (toWords block) 48
  let kws := (sha256K.zip ws).map (fun p => w32 (p.1 + p.2))
  let st := kws.foldl shaRound h
  (h.zip st).map (fun p => w32 (p.1 + p.2))

/-- Big-endian serialization of a natural into the given number of bytes. -/
def beBytes : Nat → Nat → Bytes
  | 0, _ => []
  | Nat.succ k, n => beBytes k (n / 256) ++ [n % 256]

/-- SHA-256 padding: append 0x80, zero-pad to 56 mod 64, then the 64-bit bit length. -/
def sha256Pad (msg : Bytes) : Bytes :=
  let padLen := (119 - msg.length % 64) % 64
  msg ++ 128 :: List.replicate padLen 0 ++ beBytes 8 (8 * msg.length)

/-- Split a byte list into 64-byte chunks (fuel-driven, so it reduces in the kernel). -/
def chunks64Aux : Nat → Bytes → List Bytes
  | 0, _ => []
  | _, [] => []
  | Nat.succ fuel, b :: rest => ((b :: rest).take 64) :: chunks64Aux fuel ((b :: rest).drop 64)

/-- Split a byte list into 64-byte chunks. -/
def chunks64 (l : Bytes) : List Bytes := chunks64Aux l.length l

/-- SHA-256 of a byte sequence, as 32 bytes. -/
def sha256 (msg : Bytes) : Bytes :=
  ((chunks64 (sha256Pad msg)).foldl shaBlock sha256Init).flatMap (beBytes 4)

/-- Lower-case hex digit. -/
def hexDigit (n : Nat) : Char := (str "0123456789abcdef").getD n '0'

/-- Lower-case hex rendering of a byte sequence (`digest('hex')`). -/
def toHex (bs : Bytes) : Str := bs.flatMap (fun b => [hexDigit (b / 16), hexDigit (b % 16)])

/-- UTF-8 encoding of one character. -/
def utf8Char (c : Char) : Bytes :=
  let n := c.toNat
  if n < 128 then [n]
  else if n < 2048 then [192 + n / 64, 128 + n % 64]
  else if n < 65536 then [224 + n / 4096, 128 + n / 64 % 64, 128 + n % 64]
  else [240 + n / 262144, 128 + n / 4096 % 64, 128 + n / 64 % 64, 128 + n % 64]

/-- UTF-8 encoding of a character list (Node hashes/HMACs strings as UTF-8). -/
def utf8 (s : Str) : Bytes := s.flatMap utf8Char

/-- SHA-256 hex digest of a byte sequence. -/
def sha256Hex (msg : Bytes) : Str := toHex (sha256 msg)

/-! ## HMAC-SHA256 (the `crypto.createHmac('sha256', ...)` calls) -/

/-- Normalize an HMAC key to the 64-byte block size. -/
def hmacKey (key : Bytes) : Bytes :=
  let k := if 64 < key.length then sha256 key else key
  k ++ List.replicate (64 - k.length) 0

/-- HMAC-SHA256 of a message under a key. -/
def hmacSha256 (key msg : Bytes) : Bytes :=
  let k := hmacKey key
  sha256 ((k.map (fun b => b ^^^ 92)) ++ sha256 ((k.map (fun b => b ^^^ 54)) ++ msg))

/-! ## AWS Signature Version 4 (`AwsRoute53Provider.signRequest`) -/

/-- The newline character used by the canonical request and string to sign. -/
def nl : Char := '\n'

/-- `Array.prototype.join('\n')`. -/
def joinNl : List Str → Str
  | [] => []
  | [s] => s
  | s :: rest => s ++ nl :: joinNl rest

/-- The fixed service name of the Route 53 signer. -/
def awsService : Str := str "route53"

/-- The fixed region of the Route 53 signer (Route 53 is global, uses us-east-1). -/
def awsRegion : Str := str "us-east-1"

/-- The chained HMAC-SHA256 signing-key derivation `getSignatureKey`. -/
def getSignatureKey (key dateStamp regionName serviceName : Str) : Bytes :=
  let kDate := hmacSha256 (utf8 (str "AWS4" ++ key)) (utf8 dateStamp)
  let kRegion := hmacSha256 kDate (utf8 regionName)
  let kService := hmacSha256 kRegion (utf8 serviceName)
  hmacSha256 kService (utf8 (str "aws4_request"))

/-- The `Authorization` value computed by `AwsRoute53Provider.signRequest`,
parameterized by the parsed URL pieces (`host`, `pathname`, `search`, exactly the
fields `new URL(url)` yields, `search` keeping its leading question mark) and by
the formatted timestamp `amzDate` (the source formats the current clock;
`dateStamp` is its first 8 characters). -/
def awsAuthorization (method host pathname search body accessKeyId secretAccessKey amzDate : Str) :
    Str :=
  let path := pathname ++ search
  let dateStamp := amzDate.take 8
  let canonicalHeaders := str "host:" ++ host ++ nl :: str "x-amz-date:" ++ amzDate ++ [nl]
  let signedHeaders := str "host;x-amz-date"
  let payloadHash := sha256Hex (utf8 body)
  let canonicalRequest :=
    joinNl [method, if path = [] then str "/" else path, [], canonicalHeaders,
            signedHeaders, payloadHash]
  let algorithm := str "AWS4-HMAC-SHA256"
  let credentialScope :=
    dateStamp ++ '/' :: awsRegion ++ '/' :: awsService ++ '/' :: str "aws4_request"
  let stringToSign :=
    joinNl [algorithm, amzDate, credentialScope, sha256Hex (utf8 canonicalRequest)]
  let signingKey := getSignatureKey secretAccessKey dateStamp awsRegion awsService
  let signature := toHex (hmacSha256 signingKey (utf8 stringToSign))
  algorithm ++ str " Credential=" ++ accessKeyId ++ '/' :: credentialScope ++
    str ", SignedHeaders=" ++ signedHeaders ++ str ", Signature=" ++ signature

/-- `AwsRoute53Provider.signRequest`: the outgoing header map, i.e. the caller's
headers with `Host`, `X-Amz-Date` and `Authorization` appended (later entries
override earlier ones, as with the source's object spread). -/
def signRequest (method host pathname search : Str) (headers : List (Str × Str))
    (body accessKeyId secretAccessKey amzDate : Str) : List (Str × Str) :=
  headers ++
    [(str "Host", host), (str "X-Amz-Date", amzDate),
     (str "Authorization", awsAuthorization method host pathname search body
        accessKeyId secretAccessKey amzDate)]

/-- Value of a header in a header map, later entries overriding earlier ones. -/
def headerValue (hs : List (Str × Str)) (k : Str) : Str :=
  ((hs.reverse.find? (fun p => p.1 = k)).map Prod.snd).getD []

/-- The `Authorization` value defined by the claimed algorithm (spec.md section
4.4): canonical request with separate CANONICAL_URI and CANONICAL_QUERY lines
and exactly the lower-cased sorted headers `host` and `x-amz-date`; string to
sign over the hashed canonical request; chained HMAC-SHA256 signing key; final
header `AWS4-HMAC-SHA256 Credential=..., SignedHeaders=host;x-amz-date,
Signature=...`.  `canonicalUri` and `canonicalQuery` are the path and query
components of the URL. -/
def sigv4SpecAuthorization (method canonicalUri canonicalQuery host body
    accessKeyId secretAccessKey amzDate : Str) : Str :=
  let dateStamp := amzDate.take 8
  let canonicalRequest :=
    method ++ nl :: canonicalUri ++ nl :: canonicalQuery ++ nl ::
    str "host:" ++ host ++ nl :: str "x-amz-date:" ++ amzDate ++ nl ::
    nl :: str "host;x-amz-date" ++ nl :: sha256Hex (utf8 body)
  let credentialScope :=
    dateStamp ++ '/' :: str "us-east-1" ++ '/' :: str "route53" ++ '/' :: str "aws4_request"
  let stringToSign :=
    str "AWS4-HMAC-SHA256" ++ nl :: amzDate ++ nl :: credentialScope ++ nl ::
    sha256Hex (utf8 canonicalRequest)
  let kDate := hmacSha256 (utf8 (str "AWS4" ++ secretAccessKey)) (utf8 dateStamp)
  let kRegion := hmacSha256 kDate (utf8 (str "us-east-1"))
  let kService := hmacSha256 kRegion (utf8 (str "route53"))
  let signingKey := hmacSha256 kService (utf8 (str "aws4_request"))
  let signature := toHex (hmacSha256 signingKey (utf8 stringToSign))
  str "AWS4-HMAC-SHA256 Credential=" ++ accessKeyId ++ '/' :: credentialScope ++
    str ", SignedHeaders=host;x-amz-date, Signature=" ++ signature

/-! ## TTL cache (`src/util/cache.ts`, `SimpleCache`) -/

/-- A cache entry: the stored data and the time it was stored. -/
structure CacheEntry (α : Type) where
  data : α
  timestamp : Nat
deriving DecidableEq

/-- `SimpleCache`: a TTL (in milliseconds) and a keyed entry map, modelled as an
association list in insertion order (`Map.set` replaces in place). -/
structure SimpleCache (α : Type) where
  ttlMs : Nat
  entries : List (Str × CacheEntry α)
deriving DecidableEq

/-- `Map.get`. -/
def lookupEntry {β : Type} : List (Str × β) → Str → Option β
  | [], _ => none
  | p :: rest, key => if p.1 = key then some p.2 else lookupEntry rest key

/-- `Map.delete`. -/
def eraseKey {β : Type} : List (Str × β) → Str → List (Str × β)
  | [], _ => []
  | p :: rest, key => if p.1 = key then eraseKey rest key else p :: eraseKey rest key

/-- `Map.set`: replace in place, else append. -/
def setEntry {β : Type} : List (Str × β) → Str → β → List (Str × β)
  | [], key, e => [(key, e)]
  | p :: rest, key, e => if p.1 = key then (key, e) :: rest else p :: setEntry rest key e

namespace SimpleCache

/-- `SimpleCache.get`: absent on a miss; when the age `now - timestamp` exceeds
`ttlMs` the entry is deleted and the result is absent; otherwise the data is
returned.  Returns the possibly-evicted cache alongside the result. -/
def get {α : Type} (c : SimpleCache α) (now : Nat) (key : Str) :
    SimpleCache α × Option α :=
  match lookupEntry c.entries key with
  | none => (c, none)
  | some entry =>
    if c.ttlMs < now - entry.timestamp then
      ({ c with entries := eraseKey c.entries key }, none)
    else (c, some entry.data)

/-- `SimpleCache.set`: store data under the key with the current time. -/
def set {α : Type} (c : SimpleCache α) (key : Str) (data : α) (now : Nat) : SimpleCache α :=
  { c with entries := setEntry c.entries key ⟨data, now⟩ }

/-- `SimpleCache.invalidate`. -/
def invalidate {α : Type} (c : SimpleCache α) (key : Str) : SimpleCache α :=
  { c with entries := eraseKey c.entries key }

/-- `SimpleCache.clear`. -/
def clear {α : Type} (c : SimpleCache α) : SimpleCache α :=
  { c with ttlMs := c.ttlMs, entries := [] }

/-- `SimpleCache.getOrFetch`: return the cached value if fresh, else store and
return the produced value (`fetched` is the value the producer resolves with;
in the source the producer only runs on a miss). -/
def getOrFetch {α : Type} (c : SimpleCache α) (now : Nat) (key : Str) (fetched : α) :
    α × SimpleCache α :=
  match c.get now key with
  | (c1, some v) => (v, c1)
  | (c1, none) => (fetched, c1.set key fetched now)

end SimpleCache

/-! ## Account registry (`src/core/accounts.ts`, `AccountManager`) -/

/-- `AccountProviderType`. -/
inductive ProviderKind
  | ionosDns
  | ionosCloud
  | hetznerCloud
  | hetznerRobot
  | cloudflare
  | awsRoute53
  | digitalocean
  | googleDns
  | googleCompute
  | github
deriving DecidableEq

/-- `AccountColor`. -/
inductive AccountColor
  | green
  | blue
  | purple
  | orange
  | red
  | yellow
  | cyan
  | pink
deriving DecidableEq

/-- `AccountColorMap`: color names to VS Code theme colors. -/
def accountColorMap : AccountColor → Str
  | .green => str "charts.green"
  | .blue => str "charts.blue"
  | .purple => str "charts.purple"
  | .orange => str "charts.orange"
  | .red => str "charts.red"
  | .yellow => str "charts.yellow"
  | .cyan => str "terminal.ansiCyan"
  | .pink => str "terminal.ansiMagenta"

/-- An `Account` record (a missing optional `isDefault` is falsy, hence `Bool`). -/
structure Account where
  id : Str
  name : Str
  provider : ProviderKind
  color : AccountColor
  isDefault : Bool
  createdAt : Nat
deriving DecidableEq

/-- `AccountManager.getByProvider`. -/
def getByProvider (accounts : List Account) (provider : ProviderKind) : List Account :=
  accounts.filter (fun a => a.provider == provider)

/-- `AccountManager.getById`. -/
def getById (accounts : List Account) (id : Str) : Option Account :=
  accounts.find? (fun a => a.id == id)

/-- `AccountManager.hasAccountsForProvider`. -/
def hasAccountsForProvider (accounts : List Account) (provider : ProviderKind) : Bool :=
  accounts.any (fun a => a.provider == provider)

/-- `AccountManager.getDefaultForProvider`: the provider's default account, or
its first account. -/
def getDefaultForProvider (accounts : List Account) (provider : ProviderKind) : Option Account :=
  let providerAccounts := getByProvider accounts provider
  (providerAccounts.find? (fun a => a.isDefault)).orElse (fun _ => providerAccounts.head?)

/-- The body of the default-clearing pass of `addAccount`: unset `isDefault` on
an account of the given provider that carries it. -/
def clearDefault (provider : ProviderKind) (a : Account) : Account :=
  if a.provider == provider && a.isDefault then { a with isDefault := false } else a

/-- `AccountManager.addAccount`: when the new account is default, the default
flag of every other account of the same provider is cleared, then the new
account is appended.  The generated id (`provider + Date.now()`) and creation
time are passed explicitly, as the source derives them from the clock. -/
def addAccount (accounts : List Account) (newId name : Str) (provider : ProviderKind)
    (color : AccountColor) (isDefault : Bool) (createdAt : Nat) : List Account :=
  let cleared := if isDefault then accounts.map (clearDefault provider) else accounts
  cleared ++ [{ id := newId, name := name, provider := provider, color := color,
                isDefault := isDefault, createdAt := createdAt }]

/-- The partial update accepted by `AccountManager.updateAccount`
(`Partial<Pick<Account, 'name' | 'color' | 'isDefault'>>`). -/
structure AccountUpdates where
  name : Option Str
  color : Option AccountColor
  isDefault : Option Bool
deriving DecidableEq

/-- Overlay a defined `name`/`color` update onto an account. -/
def applyNameColor (a : Account) (u : AccountUpdates) : Account :=
  { a with name := u.name.getD a.name, color := u.color.getD a.color }

/-- The effect of one `updateAccount` call on one account of the list: the
target (matched by id) receives the defined `name`/`color` updates and, on a
truthy `updates.isDefault`, the default flag; any other default account of the
target's provider is cleared on a truthy `updates.isDefault`. -/
def applyUpdate (id : Str) (u : AccountUpdates) (target : Account) (a : Account) : Account :=
  if a.id == id then
    if u.isDefault = some true then { applyNameColor a u with isDefault := true }
    else applyNameColor a u
  else if u.isDefault = some true ∧ a.provider = target.provider ∧ a.isDefault then
    { a with isDefault := false }
  else a

/-- `AccountManager.updateAccount`: `none` when the id is unknown (the source
throws).  A truthy `updates.isDefault` clears the default flag of every other
account of the target's provider and sets the target's; a false or missing
`updates.isDefault` leaves all default flags alone. -/
def updateAccount (accounts : List Account) (id : Str) (u : AccountUpdates) :
    Option (List Account) :=
  match accounts.find? (fun a => a.id == id) with
  | none => none
  | some target => some (accounts.map (applyUpdate id u target))

/-- `AccountManager.deleteAccount`: `none` when the id is unknown (the source
throws); removes the first account with the id (`findIndex` + `splice`). -/
def deleteAccount (accounts : List Account) (id : Str) : Option (List Account) :=
  match accounts.findIdx? (fun a => a.id == id) with
  | none => none
  | some i => some (accounts.eraseIdx i)

/-- No two accounts of one provider kind both carry the default flag. -/
def SingleDefault (accounts : List Account) : Prop :=
  accounts.Pairwise (fun a b => a.provider = b.provider → ¬(a.isDefault ∧ b.isDefault))

/-- Account ids are pairwise distinct (ids are unique by construction). -/
def UniqueIds (accounts : List Account) : Prop :=
  accounts.Pairwise (fun a b => a.id ≠ b.id)

/-! ## Resources and sentinels of the provider adapters -/

/-- A normalized DNS record; the type is the runtime string (`A`, `AAAA`, ...). -/
structure DnsRecord where
  id : Str
  type : Str
  name : Str
  value : Str
  ttl : Nat
deriving DecidableEq

/-- An IONOS `Domain` (the plain capability shape, no account provenance). -/
structure Domain where
  id : Str
  name : Str
  records : List DnsRecord
deriving DecidableEq

/-- `AwsDomainWithAccount`. -/
structure AwsDomain where
  id : Str
  name : Str
  records : List DnsRecord
  accountId : Str
  accountName : Str
  accountColor : Str
  hostedZoneId : Str
deriving DecidableEq

/-- `GoogleDomainWithAccount`. -/
structure GoogleDomain where
  id : Str
  name : Str
  records : List DnsRecord
  accountId : Str
  accountName : Str
  accountColor : Str
  projectId : Str
deriving DecidableEq

/-- `CloudflareDomainWithAccount`. -/
structure CloudflareDomain where
  id : Str
  name : Str
  records : List DnsRecord
  accountId : Str
  accountName : Str
  accountColor : Str
deriving DecidableEq

/-- `HetznerServerWithAccount`; the status is the runtime string. -/
structure HetznerServer where
  id : Str
  name : Str
  status : Str
  publicIp : Str
  project : Str
  accountId : Str
  accountName : Str
  accountColor : Str
deriving DecidableEq

/-- The zero-account sentinel of `AwsRoute53Provider.listDomains`. -/
def awsNoAccountDomain : AwsDomain :=
  { id := str "__no_account__", name := str "⚠️ Kein Account konfiguriert", records := [],
    accountId := str "", accountName := str "", accountColor := str "",
    hostedZoneId := str "" }

/-- The per-account error sentinel of `AwsRoute53Provider.listDomains`. -/
def awsErrorDomain (account : Account) : AwsDomain :=
  { id := str "__error_" ++ account.id ++ str "__",
    name := str "❌ " ++ account.name ++ str ": Fehler beim Laden", records := [],
    accountId := account.id, accountName := account.name,
    accountColor := accountColorMap account.color, hostedZoneId := str "" }

/-- The zero-account sentinel of `GoogleDnsProvider.listDomains`. -/
def googleNoAccountDomain : GoogleDomain :=
  { id := str "__no_account__", name := str "⚠️ Kein Account konfiguriert", records := [],
    accountId := str "", accountName := str "", accountColor := str "", projectId := str "" }

/-- The per-account error sentinel of `GoogleDnsProvider.listDomains`. -/
def googleErrorDomain (account : Account) : GoogleDomain :=
  { id := str "__error_" ++ account.id ++ str "__",
    name := str "❌ " ++ account.name ++ str ": Fehler beim Laden", records := [],
    accountId := account.id, accountName := account.name,
    accountColor := accountColorMap account.color, projectId := str "" }

/-- The zero-account sentinel of `CloudflareProvider.listDomains`. -/
def cloudflareNoAccountDomain : CloudflareDomain :=
  { id := str "__no_account__", name := str "⚠️ Kein Account konfiguriert", records := [],
    accountId := str "", accountName := str "", accountColor := str "" }

/-- The per-account error sentinel of `CloudflareProvider.listDomains`. -/
def cloudflareErrorDomain (account : Account) : CloudflareDomain :=
  { id := str "__error_" ++ account.id ++ str "__",
    name := str "❌ " ++ account.name ++ str ": Fehler beim Laden", records := [],
    accountId := account.id, accountName := account.name,
    accountColor := accountColorMap account.color }

/-- The zero-account sentinel of `HetznerCloudProvider.listServers`. -/
def hetznerNoAccountServer : HetznerServer :=
  { id := str "__no_account__", name := str "⚠️ Kein Account konfiguriert",
    status := str "unknown", publicIp := str "", project := str "default",
    accountId := str "", accountName := str "", accountColor := str "" }

/-- The per-account error sentinel of `HetznerCloudProvider.listServers`. -/
def hetznerErrorServer (account : Account) : HetznerServer :=
  { id := str "__error_" ++ account.id ++ str "__",
    name := str "❌ " ++ account.name ++ str ": Fehler beim Laden",
    status := str "unknown", publicIp := str "", project := str "default",
    accountId := account.id, accountName := account.name,
    accountColor := accountColorMap account.color }

/-- The no-token sentinel of `IonosDnsProvider.listDomains`. -/
def ionosNoTokenDomain : Domain :=
  { id := str "__no_token__", name := str "⚠️ Token nicht konfiguriert", records := [] }

/-! ## The multi-account aggregation loop -/

/-- Outcome of one account's work inside the aggregation try/catch: the
credential may be absent (the account is silently skipped), the credential
lookup or the fetch may throw, or the fetch yields normalized resources. -/
inductive PerAccount (R : Type)
  | tokenAbsent
  | thrown
  | fetched (resources : List R)

/-- The shared fan-out loop of the aggregated list operations (the `for`
loop of `AwsRoute53Provider.listDomains` and its Google/Cloudflare/Hetzner
twins): accounts are processed in order; a missing token skips the account, a
throw contributes the error sentinel, a successful fetch contributes its
resources.  The loop is total: no outcome escapes as an exception. -/
def aggregate {R : Type} (perAccount : Account → PerAccount R) (errSentinel : Account → R) :
    List Account → List R
  | [] => []
  | acc :: rest =>
    (match perAccount acc with
     | .tokenAbsent => []
     | .thrown => [errSentinel acc]
     | .fetched rs => rs) ++ aggregate perAccount errSentinel rest

/-- `AwsRoute53Provider.listDomains`: with no `aws-route53` account, exactly the
no-account sentinel; otherwise the aggregate, cached under `all-domains`. -/
def awsListDomains (accounts : List Account) (perAccount : Account → PerAccount AwsDomain)
    (cache : SimpleCache (List AwsDomain)) (now : Nat) :
    List AwsDomain × SimpleCache (List AwsDomain) :=
  let accts := getByProvider accounts .awsRoute53
  if accts = [] then ([awsNoAccountDomain], cache)
  else cache.getOrFetch now (str "all-domains") (aggregate perAccount awsErrorDomain accts)

/-- `GoogleDnsProvider.listDomains`. -/
def googleListDomains (accounts : List Account)
    (perAccount : Account → PerAccount GoogleDomain)
    (cache : SimpleCache (List GoogleDomain)) (now : Nat) :
    List GoogleDomain × SimpleCache (List GoogleDomain) :=
  let accts := getByProvider accounts .googleDns
  if accts = [] then ([googleNoAccountDomain], cache)
  else cache.getOrFetch now (str "all-domains") (aggregate perAccount googleErrorDomain accts)

/-- `CloudflareProvider.listDomains`. -/
def cloudflareListDomains (accounts : List Account)
    (perAccount : Account → PerAccount CloudflareDomain)
    (cache : SimpleCache (List CloudflareDomain)) (now : Nat) :
    List CloudflareDomain × SimpleCache (List CloudflareDomain) :=
  let accts := getByProvider accounts .cloudflare
  if accts = [] then ([cloudflareNoAccountDomain], cache)
  else cache.getOrFetch now (str "all-domains")
    (aggregate perAccount cloudflareErrorDomain accts)

/-- `HetznerCloudProvider.listServers`: with no `hetzner-cloud` account, exactly
the no-account sentinel; otherwise the aggregate, cached under `all-servers`. -/
def hetznerListServers (accounts : List Account)
    (perAccount : Account → PerAccount HetznerServer)
    (cache : SimpleCache (List HetznerServer)) (now : Nat) :
    List HetznerServer × SimpleCache (List HetznerServer) :=
  let accts := getByProvider accounts .hetznerCloud
  if accts = [] then ([hetznerNoAccountServer], cache)
  else cache.getOrFetch now (str "all-servers") (aggregate perAccount hetznerErrorServer accts)

/-- `IonosDnsProvider.listDomains`: keyed off the legacy secret, not the account
registry; without a token it returns the no-token sentinel, otherwise the
cached fetch under key `domains` (`fetched` being the producer's value). -/
def ionosListDomains (token : Option Str) (fetched : List Domain)
    (cache : SimpleCache (List Domain)) (now : Nat) :
    List Domain × SimpleCache (List Domain) :=
  match token with
  | none => ([ionosNoTokenDomain], cache)
  | some _ => cache.getOrFetch now (str "domains") fetched

/-- Whether an id carries the reserved `__error_` sentinel tag. -/
def hasErrorTag (id : Str) : Bool := id.take 8 == str "__error_"

/-- Concrete failing account used by the C2 witness (AWS). -/
def wAwsAccount : Account := ⟨str "f1", str "F", .awsRoute53, .blue, false, 0⟩

/-- Concrete failing account used by the C2 witness (Google). -/
def wGoogleAccount : Account := ⟨str "f2", str "F", .googleDns, .blue, false, 0⟩

/-- Concrete failing account used by the C2 witness (Cloudflare). -/
def wCfAccount : Account := ⟨str "f3", str "F", .cloudflare, .blue, false, 0⟩

/-- Concrete failing account used by the C2 witness (Hetzner). -/
def wHetznerAccount : Account := ⟨str "f4", str "F", .hetznerCloud, .blue, false, 0⟩

/-! ## Packed record-id codecs (Google, AWS) -/

/-- `String.prototype.split('::')`, specialized to the two-colon separator:
leftmost, non-overlapping matches. -/
def splitOnColons : Str → List Str
  | [] => [[]]
  | [c] => [[c]]
  | c :: d :: rest =>
    if c = ':' ∧ d = ':' then [] :: splitOnColons rest
    else
      match splitOnColons (d :: rest) with
      | h :: t => (c :: h) :: t
      | [] => [[c]]

/-- The packed record id `zone.name::r.name::r.type` produced by
`GoogleDnsProvider.fetchDomainsForAccount`. -/
def googleRecordId (zoneName rName rType : Str) : Str :=
  zoneName ++ str "::" ++ rName ++ str "::" ++ rType

/-- `GoogleDnsProvider.updateRecord`'s record-id parsing: split on `::` and
require exactly three parts (the source throws otherwise). -/
def googleDecodeRecordId (recordId : Str) : Option (Str × Str × Str) :=
  match splitOnColons recordId with
  | [zoneName, recordName, recordType] => some (zoneName, recordName, recordType)
  | _ => none

/-- The record types kept by the Google adapter's rrset filter. -/
def googleSupportedTypes : List Str :=
  [str "A", str "AAAA", str "CNAME", str "MX", str "TXT", str "NS"]

/-- The record types kept by `parseRecordSetsXml`. -/
def awsSupportedTypes : List Str :=
  [str "A", str "AAAA", str "CNAME", str "MX", str "TXT", str "NS"]

/-- The packed record id `name-type` produced by
`AwsRoute53Provider.parseRecordSetsXml`. -/
def awsRecordId (name rType : Str) : Str := name ++ '-' :: rType

/-- Scanner behind `String.prototype.lastIndexOf` for a single character. -/
def lastIndexOfAux (c : Char) : Str → Nat → Option Nat → Option Nat
  | [], _, acc => acc
  | x :: rest, i, acc => lastIndexOfAux c rest (i + 1) (if x = c then some i else acc)

/-- `String.prototype.lastIndexOf` (−1 encoded as `none`). -/
def lastIndexOf (c : Char) (s : Str) : Option Nat := lastIndexOfAux c s 0 none

/-- `AwsRoute53Provider.updateRecord`'s record-id parsing:
`recordId.substring(0, lastDash)` and `recordId.substring(lastDash + 1)` (with
no dash, JS clamps to the empty name and the whole id as the type). -/
def awsDecodeRecordId (recordId : Str) : Str × Str :=
  match lastIndexOf '-' recordId with
  | none => ([], recordId)
  | some i => (recordId.take i, recordId.drop (i + 1))

/-! ## Base64, JSON serialization, and the Google JWT assembly -/

/-- The base64 alphabet used by `Buffer.toString('base64')` and
`crypto.Sign.sign(key, 'base64')`. -/
def base64Alphabet : Str :=
  str "ABCDEFGHIJKLMNOPQRSTUVWXYZabcdefghijklmnopqrstuvwxyz0123456789+/"

/-- The base64 digit for a 6-bit value. -/
def base64Char (n : Nat) : Char := base64Alphabet.getD n 'A'

/-- Standard base64 with padding over bytes. -/
def base64Std : Bytes → Str
  | [] => []
  | [b1] => [base64Char (b1 / 4), base64Char (b1 % 4 * 16), '=', '=']
  | [b1, b2] =>
    [base64Char (b1 / 4), base64Char (b1 % 4 * 16 + b2 / 16), base64Char (b2 % 16 * 4), '=']
  | b1 :: b2 :: b3 :: rest =>
    base64Char (b1 / 4) :: base64Char (b1 % 4 * 16 + b2 / 16) ::
    base64Char (b2 % 16 * 4 + b3 / 64) :: base64Char (b3 % 64) :: base64Std rest

/-- The `replace('+','-')`/`replace('/','_')` step of the url-safe rewrite. -/
def b64UrlChar (c : Char) : Char := if c = '+' then '-' else if c = '/' then '_' else c

/-- `.replace(/\+/g,'-').replace(/\//g,'_').replace(/=/g,'')`: the source's
conversion of standard base64 into unpadded base64url. -/
def b64UrlOfStd (s : Str) : Str := (s.map b64UrlChar).filter (fun c => c != '=')

/-- `GoogleDnsProvider.base64urlEncode`: UTF-8 bytes, standard base64, then the
url-safe rewrite. -/
def base64urlEncode (s : Str) : Str := b64UrlOfStd (base64Std (utf8 s))

/-- Index of a character in an alphabet (0 when absent). -/
def alphaIndexAux : Str → Char → Nat → Nat
  | [], _, _ => 0
  | x :: rest, c, i => if x = c then i else alphaIndexAux rest c (i + 1)

/-- The 6-bit value of a base64url digit. -/
def b64UrlVal (c : Char) : Nat :=
  if c = '-' then 62 else if c = '_' then 63 else alphaIndexAux base64Alphabet c 0

/-- Decoding of unpadded base64url back to bytes. -/
def base64urlDecode : Str → Bytes
  | c1 :: c2 :: c3 :: c4 :: rest =>
    (b64UrlVal c1 * 4 + b64UrlVal c2 / 16) ::
    (b64UrlVal c2 % 16 * 16 + b64UrlVal c3 / 4) ::
    (b64UrlVal c3 % 4 * 64 + b64UrlVal c4) :: base64urlDecode rest
  | [c1, c2] => [b64UrlVal c1 * 4 + b64UrlVal c2 / 16]
  | [c1, c2, c3] =>
    [b64UrlVal c1 * 4 + b64UrlVal c2 / 16, b64UrlVal c2 % 16 * 16 + b64UrlVal c3 / 4]
  | _ => []

/-- The unpadded base64url alphabet. -/
def base64UrlAlphabet : Str :=
  str "ABCDEFGHIJKLMNOPQRSTUVWXYZabcdefghijklmnopqrstuvwxyz0123456789-_"

/-- `JSON.stringify`'s escape of one character inside a string literal. -/
def jsonEscapeChar (c : Char) : Str :=
  if c = '\"' then ['\\', '\"']
  else if c = '\\' then ['\\', '\\']
  else if c = '\x08' then ['\\', 'b']
  else if c = '\x0c' then ['\\', 'f']
  else if c = '\n' then ['\\', 'n']
  else if c = '\x0d' then ['\\', 'r']
  else if c = '\t' then ['\\', 't']
  else if c.toNat < 32 then
    ['\\', 'u', '0', '0', hexDigit (c.toNat / 16), hexDigit (c.toNat % 16)]
  else [c]

/-- `JSON.stringify` of a string. -/
def jsonString (s : Str) : Str := '\"' :: s.flatMap jsonEscapeChar ++ ['\"']

/-- Decimal rendering of a natural (JS number serialization of an integer). -/
def natToStr (n : Nat) : Str := Nat.toDigits 10 n

/-- `JSON.stringify({alg: 'RS256', typ: 'JWT'})`. -/
def googleJwtHeaderJson : Str := str "\x7b\"alg\":\"RS256\",\"typ\":\"JWT\"\x7d"

/-- `JSON.stringify` of the claim set built by `getAccessToken`, with the
`iat` and `exp` values explicit. -/
def googleJwtClaimSetJson (clientEmail tokenUri : Str) (iat expiry : Nat) : Str :=
  str "\x7b\"iss\":" ++ jsonString clientEmail ++
  str ",\"scope\":\"https://www.googleapis.com/auth/cloud-platform\",\"aud\":" ++
  jsonString tokenUri ++ str ",\"iat\":" ++ natToStr iat ++
  str ",\"exp\":" ++ natToStr expiry ++ str "\x7d"

/-- The payload `getAccessToken` serializes: `iat = now`, `exp = now + 3600`. -/
def googleJwtPayloadJson (clientEmail tokenUri : Str) (now : Nat) : Str :=
  googleJwtClaimSetJson clientEmail tokenUri now (now + 3600)

/-- The claim set as the spec's words state it, for comparison: identical but
with `scope: "cloud-platform"` taken literally. -/
def googleJwtClaimSetJsonSpec (clientEmail tokenUri : Str) (iat expiry : Nat) : Str :=
  str "\x7b\"iss\":" ++ jsonString clientEmail ++
  str ",\"scope\":\"cloud-platform\",\"aud\":" ++
  jsonString tokenUri ++ str ",\"iat\":" ++ natToStr iat ++
  str ",\"exp\":" ++ natToStr expiry ++ str "\x7d"

/-- `GoogleDnsProvider.createJwt`: base64url-encode header and payload, join
with `.`, sign the input (the RSA-SHA256 base64 signature is the external
`crypto` call, passed as a function), url-rewrite the signature and append. -/
def createJwt (headerJson payloadJson : Str) (rsaSignBase64 : Str → Str) : Str :=
  let encodedHeader := base64urlEncode headerJson
  let encodedPayload := base64urlEncode payloadJson
  let signatureInput := encodedHeader ++ '.' :: encodedPayload
  signatureInput ++ '.' :: b64UrlOfStd (rsaSignBase64 signatureInput)

/-- `String.prototype.split` on a single-character separator. -/
def splitOnChar (sep : Char) : Str → List Str
  | [] => [[]]
  | c :: rest =>
    if c = sep then [] :: splitOnChar sep rest
    else
      match splitOnChar sep rest with
      | h :: t => (c :: h) :: t
      | [] => [[c]]

/-! ## HTTP model, error taxonomy, and the single-target write paths -/

/-- An HTTP response as the adapters consume it. -/
structure HttpResponse where
  status : Nat
  statusText : Str
  body : Str
deriving DecidableEq

/-- An outgoing HTTP request. -/
structure HttpRequest where
  method : Str
  url : Str
  headers : List (Str × Str)
  body : Str
deriving DecidableEq

/-- `Response.ok`: status in the 2xx range. -/
def respOk (status : Nat) : Bool := 200 ≤ status && status ≤ 299

/-- `isAuthError` (`src/util/errors.ts`): 401 or 403. -/
def isAuthErrorStatus (status : Nat) : Bool := status == 401 || status == 403

/-- The errors the adapters throw: plain `Error(message)`,
`AuthError(provider)`, and `ApiError(provider, statusCode, statusText,
responseBody?)`. -/
inductive ProviderError
  | plainError (message : Str)
  | authError (provider : Str)
  | apiError (provider : Str) (status : Nat) (statusText : Str) (body : Option Str)
deriving DecidableEq

/-- The spec's `ConfigurationError` (no account resolvable): in the source the
plain `Error('Kein Account konfiguriert')` thrown before any request. -/
def configurationError : ProviderError := .plainError (str "Kein Account konfiguriert")

/-- `AwsRoute53Provider.parseCredentials`: split `keyId:secretKey` on `:`,
destructure the first two parts, reject a missing or empty part. -/
def parseCredentials (credentials : Str) : Option (Str × Str) :=
  match splitOnChar ':' credentials with
  | accessKeyId :: secretAccessKey :: _ =>
    if accessKeyId = [] ∨ secretAccessKey = [] then none
    else some (accessKeyId, secretAccessKey)
  | _ => none

/-- JS `n || d` on an optional number (0 is falsy). -/
def jsOrDefault (n : Option Nat) (d : Nat) : Nat :=
  match n with
  | none => d
  | some t => if t = 0 then d else t

/-- `s.replace(/\.$/, '')`. -/
def stripTrailingDot (s : Str) : Str := if s.getLast? = some '.' then s.dropLast else s

/-- External effects of the AWS write path: the secret store, the HTTP
transport, and the formatted clock for SigV4. -/
structure UpdateEnv where
  getToken : Str → Option Str
  http : HttpRequest → HttpResponse
  amzDate : Str

/-- The UPSERT change-batch XML built by `AwsRoute53Provider.updateRecord`. -/
def awsChangeXml (recordName recordType : Str) (ttl : Option Nat) (newValue : Str) : Str :=
  str "<?xml version=\"1.0\" encoding=\"UTF-8\"?>\n<ChangeResourceRecordSetsRequest xmlns=\"https://route53.amazonaws.com/doc/2013-04-01/\">\n  <ChangeBatch>\n    <Changes>\n      <Change>\n        <Action>UPSERT</Action>\n        <ResourceRecordSet>\n          <Name>" ++
  recordName ++ str "</Name>\n          <Type>" ++ recordType ++
  str "</Type>\n          <TTL>" ++ natToStr (jsOrDefault ttl 300) ++
  str "</TTL>\n          <ResourceRecords>\n            <ResourceRecord>\n              <Value>" ++
  newValue ++
  str "</Value>\n            </ResourceRecord>\n          </ResourceRecords>\n        </ResourceRecordSet>\n      </Change>\n    </Changes>\n  </ChangeBatch>\n</ChangeResourceRecordSetsRequest>"

/-- `AwsRoute53Provider.updateRecord`: resolve the account (explicit id, else
provider default), fetch the credential, parse it, decode the record id, build
the change XML, sign and POST it, classify the response, and clear the cache on
success.  Returns the outcome, the requests issued, and the cache. -/
def awsUpdateRecord (env : UpdateEnv) (accounts : List Account)
    (cache : SimpleCache (List AwsDomain)) (domainId recordId newValue : Str)
    (ttl : Option Nat) (accountId : Option Str) :
    Except ProviderError Unit × List HttpRequest × SimpleCache (List AwsDomain) :=
  let account := match accountId with
    | some i => getById accounts i
    | none => getDefaultForProvider accounts .awsRoute53
  match account with
  | none => (.error configurationError, [], cache)
  | some acc =>
    match env.getToken acc.id with
    | none => (.error (.authError (str "AWS Route 53")), [], cache)
    | some credentials =>
      match parseCredentials credentials with
      | none =>
        (.error (.plainError
          (str "Invalid AWS credentials format. Expected: accessKeyId:secretAccessKey")),
         [], cache)
      | some (accessKeyId, secretAccessKey) =>
        let (recordName, recordType) := awsDecodeRecordId recordId
        let changeXml := awsChangeXml recordName recordType ttl newValue
        let pathname := str "/2013-04-01/hostedzone/" ++ domainId ++ str "/rrset"
        let headers := signRequest (str "POST") (str "route53.amazonaws.com") pathname []
          [(str "Content-Type", str "application/xml")] changeXml accessKeyId
          secretAccessKey env.amzDate
        let req : HttpRequest :=
          { method := str "POST",
            url := str "https://route53.amazonaws.com" ++ pathname,
            headers := headers, body := changeXml }
        let resp := env.http req
        if respOk resp.status then (.ok (), [req], cache.clear)
        else
          (.error (.apiError (str "AWS Route 53") resp.status resp.statusText
            (some resp.body)), [req], cache)

/-- The fields of the current Cloudflare record that the PUT body reuses. -/
structure CfRecordData where
  type : Str
  name : Str
  ttl : Nat
  proxied : Bool
deriving DecidableEq

/-- External effects of the Cloudflare write path; `parseRecord` stands for
`JSON.parse(...).result` on the GET response. -/
structure CfEnv where
  getToken : Str → Option Str
  http : HttpRequest → HttpResponse
  parseRecord : Str → CfRecordData

/-- The PUT body of `CloudflareProvider.updateRecord`. -/
def cfPutBody (current : CfRecordData) (newValue : Str) (ttl : Option Nat) : Str :=
  str "\x7b\"type\":" ++ jsonString current.type ++
  str ",\"name\":" ++ jsonString current.name ++
  str ",\"content\":" ++ jsonString newValue ++
  str ",\"ttl\":" ++ natToStr (jsOrDefault ttl current.ttl) ++
  str ",\"proxied\":" ++ (if current.proxied then str "true" else str "false") ++ str "\x7d"

/-- `CloudflareProvider.updateRecord`: resolve the account, fetch the token,
GET the current record (classifying 401/403 as auth failure), overlay the new
value, PUT, and clear the cache on success. -/
def cloudflareUpdateRecord (env : CfEnv) (accounts : List Account)
    (cache : SimpleCache (List CloudflareDomain)) (domainId recordId newValue : Str)
    (ttl : Option Nat) (accountId : Option Str) :
    Except ProviderError Unit × List HttpRequest × SimpleCache (List CloudflareDomain) :=
  let account := match accountId with
    | some i => getById accounts i
    | none => getDefaultForProvider accounts .cloudflare
  match account with
  | none => (.error configurationError, [], cache)
  | some acc =>
    match env.getToken acc.id with
    | none => (.error (.authError (str "Cloudflare")), [], cache)
    | some token =>
      let url := str "https://api.cloudflare.com/client/v4/zones/" ++ domainId ++
        str "/dns_records/" ++ recordId
      let getReq : HttpRequest :=
        { method := str "GET", url := url,
          headers := [(str "Authorization", str "Bearer " ++ token)], body := str "" }
      let getRes := env.http getReq
      if ¬ respOk getRes.status then
        if isAuthErrorStatus getRes.status then
          (.error (.authError (str "Cloudflare")), [getReq], cache)
        else
          (.error (.apiError (str "Cloudflare") getRes.status getRes.statusText none),
           [getReq], cache)
      else
        let currentRecord := env.parseRecord getRes.body
        let putReq : HttpRequest :=
          { method := str "PUT", url := url,
            headers := [(str "Authorization", str "Bearer " ++ token),
                        (str "Content-Type", str "application/json")],
            body := cfPutBody currentRecord newValue ttl }
        let response := env.http putReq
        if ¬ respOk response.status then
          (.error (.apiError (str "Cloudflare") response.status response.statusText
            (some response.body)), [getReq, putReq], cache)
        else (.ok (), [getReq, putReq], cache.clear)

/-- The service-account key fields the Google adapter uses. -/
structure ServiceAccountKey where
  projectId : Str
  clientEmail : Str
  privateKey : Str
  tokenUri : Str
deriving DecidableEq

/-- External effects of the Google paths: the secret store, HTTP,
key parsing (`Buffer.from`/`JSON.parse`, whose thrown message is
environment-determined), RSA signing, token-response parsing, and the clock. -/
structure GoogleEnv where
  getToken : Str → Option Str
  http : HttpRequest → HttpResponse
  parseServiceKey : Str → Except Str ServiceAccountKey
  rsaSignBase64 : Str → Str
  parseTokenResponse : Str → Str × Nat
  nowMs : Nat

/-- `GoogleDnsProvider.getAccessToken`: reuse a cached unexpired token, else
parse the key, build and sign the JWT, exchange it at the token endpoint (any
non-2xx there is an auth failure), and cache the token until
`now + (expires_in − 60)s`. -/
def googleGetAccessToken (env : GoogleEnv) (tokenCache : List (Str × (Str × Nat)))
    (keyJson : Str) :
    Except ProviderError Str × List HttpRequest × List (Str × (Str × Nat)) :=
  match lookupEntry tokenCache keyJson with
  | some (token, expiry) =>
    if env.nowMs < expiry then (.ok token, [], tokenCache)
    else
      match env.parseServiceKey keyJson with
      | .error m => (.error (.plainError m), [], tokenCache)
      | .ok key =>
        let now := env.nowMs / 1000
        let jwt := createJwt googleJwtHeaderJson
          (googleJwtPayloadJson key.clientEmail key.tokenUri now) env.rsaSignBase64
        let req : HttpRequest :=
          { method := str "POST", url := key.tokenUri,
            headers := [(str "Content-Type", str "application/x-www-form-urlencoded")],
            body := str "grant_type=urn:ietf:params:oauth:grant-type:jwt-bearer&assertion=" ++
              jwt }
        let resp := env.http req
        if ¬ respOk resp.status then
          (.error (.authError (str "Google Cloud")), [req], tokenCache)
        else
          let (token2, expiresIn) := env.parseTokenResponse resp.body
          (.ok token2, [req],
           setEntry tokenCache keyJson (token2, env.nowMs + (expiresIn - 60) * 1000))
  | none =>
    match env.parseServiceKey keyJson with
    | .error m => (.error (.plainError m), [], tokenCache)
    | .ok key =>
      let now := env.nowMs / 1000
      let jwt := createJwt googleJwtHeaderJson
        (googleJwtPayloadJson key.clientEmail key.tokenUri now) env.rsaSignBase64
      let req : HttpRequest :=
        { method := str "POST", url := key.tokenUri,
          headers := [(str "Content-Type", str "application/x-www-form-urlencoded")],
          body := str "grant_type=urn:ietf:params:oauth:grant-type:jwt-bearer&assertion=" ++
            jwt }
      let resp := env.http req
      if ¬ respOk resp.status then
        (.error (.authError (str "Google Cloud")), [req], tokenCache)
      else
        let (token2, expiresIn) := env.parseTokenResponse resp.body
        (.ok token2, [req],
         setEntry tokenCache keyJson (token2, env.nowMs + (expiresIn - 60) * 1000))

/-- The change body of `GoogleDnsProvider.updateRecord` (additions entry with
the record name dot-terminated). -/
def googleChangeBody (recordName recordType : Str) (ttl : Option Nat) (newValue : Str) :
    Str :=
  let name := if recordName.getLast? = some '.' then recordName else recordName ++ ['.']
  str "\x7b\"deletions\":[],\"additions\":[\x7b\"name\":" ++ jsonString name ++
  str ",\"type\":" ++ jsonString recordType ++
  str ",\"ttl\":" ++ natToStr (jsOrDefault ttl 300) ++
  str ",\"rrdatas\":[" ++ jsonString newValue ++ str "]\x7d]\x7d"

/-- `GoogleDnsProvider.updateRecord`: resolve the account, fetch the key,
decode the `zone::name::type` record id, parse the key, obtain an access
token, POST the change, and clear the cache on success. -/
def googleUpdateRecord (env : GoogleEnv) (accounts : List Account)
    (tokenCache : List (Str × (Str × Nat))) (cache : SimpleCache (List GoogleDomain))
    (domainId recordId newValue : Str) (ttl : Option Nat) (accountId : Option Str) :
    Except ProviderError Unit × List HttpRequest × List (Str × (Str × Nat)) ×
      SimpleCache (List GoogleDomain) :=
  let account := match accountId with
    | some i => getById accounts i
    | none => getDefaultForProvider accounts .googleDns
  match account with
  | none => (.error configurationError, [], tokenCache, cache)
  | some acc =>
    match env.getToken acc.id with
    | none => (.error (.authError (str "Google Cloud")), [], tokenCache, cache)
    | some keyJson =>
      match splitOnColons recordId with
      | [_, recordName, recordType] =>
        match env.parseServiceKey keyJson with
        | .error m => (.error (.plainError m), [], tokenCache, cache)
        | .ok key =>
          match googleGetAccessToken env tokenCache keyJson with
          | (.error e, trace, tokenCache2) => (.error e, trace, tokenCache2, cache)
          | (.ok token, trace, tokenCache2) =>
            let req : HttpRequest :=
              { method := str "POST",
                url := str "https://dns.googleapis.com/dns/v1/projects/" ++ key.projectId ++
                  str "/managedZones/" ++ domainId ++ str "/changes",
                headers := [(str "Authorization", str "Bearer " ++ token),
                            (str "Content-Type", str "application/json")],
                body := googleChangeBody recordName recordType ttl newValue }
            let resp := env.http req
            if ¬ respOk resp.status then
              (.error (.apiError (str "Google Cloud") resp.status resp.statusText
                (some resp.body)), trace ++ [req], tokenCache2, cache)
            else (.ok (), trace ++ [req], tokenCache2, cache.clear)
      | _ =>
        (.error (.plainError (str "Invalid record ID format: " ++ recordId ++
          str ". Expected format: zoneName::recordName::recordType")), [], tokenCache, cache)

/-- A hosted zone as scraped from the list response. -/
structure AwsZone where
  id : Str
  name : Str
deriving DecidableEq

/-- External effects of the AWS list path; the two XML scrapers
(`parseHostedZonesXml`, `parseRecordSetsXml`) are regex-engine behavior and
enter as environment functions (the id packing they perform is modelled
separately as `awsRecordId`). -/
structure AwsListEnv where
  http : HttpRequest → HttpResponse
  amzDate : Str
  parseHostedZonesXml : Str → List AwsZone
  parseRecordSetsXml : Str → Str → List DnsRecord

/-- `AwsRoute53Provider.fetchDomainsForAccount`: parse the credential, sign and
issue the zone-list GET — classifying 401/403 as an auth failure and any other
non-2xx as an API failure without body — then fetch each zone's record sets (a
failed per-zone fetch degrades to an empty record list). -/
def awsFetchDomainsForAccount (env : AwsListEnv) (account : Account) (credentials : Str) :
    Except ProviderError (List AwsDomain) × List HttpRequest :=
  match parseCredentials credentials with
  | none =>
    (.error (.plainError
      (str "Invalid AWS credentials format. Expected: accessKeyId:secretAccessKey")), [])
  | some (accessKeyId, secretAccessKey) =>
    let headers := signRequest (str "GET") (str "route53.amazonaws.com")
      (str "/2013-04-01/hostedzone") [] [] (str "") accessKeyId secretAccessKey env.amzDate
    let req : HttpRequest :=
      { method := str "GET", url := str "https://route53.amazonaws.com/2013-04-01/hostedzone",
        headers := headers, body := str "" }
    let response := env.http req
    if ¬ respOk response.status then
      if isAuthErrorStatus response.status then
        (.error (.authError (str "AWS Route 53")), [req])
      else
        (.error (.apiError (str "AWS Route 53") response.status response.statusText none),
         [req])
    else
      let zones := env.parseHostedZonesXml response.body
      let perZone := zones.map (fun zone =>
        let recordsPath := str "/2013-04-01/hostedzone/" ++ zone.id ++ str "/rrset"
        let recordHeaders := signRequest (str "GET") (str "route53.amazonaws.com")
          recordsPath [] [] (str "") accessKeyId secretAccessKey env.amzDate
        let req2 : HttpRequest :=
          { method := str "GET", url := str "https://route53.amazonaws.com" ++ recordsPath,
            headers := recordHeaders, body := str "" }
        let resp2 := env.http req2
        let records :=
          if respOk resp2.status then env.parseRecordSetsXml resp2.body zone.name else []
        (({ id := zone.id, name := stripTrailingDot zone.name, records := records,
            accountId := account.id, accountName := account.name,
            accountColor := accountColorMap account.color,
            hostedZoneId := zone.id } : AwsDomain), req2))
      (.ok (perZone.map Prod.fst), req :: perZone.map Prod.snd)

/-- A no-account environment for the C8 witness (AWS shape). -/
def wDummyUpdateEnv : UpdateEnv :=
  ⟨fun _ => none, fun _ => ⟨200, str "OK", str ""⟩, str "20130524T000000Z"⟩

/-- A no-account environment for the C8 witness (Cloudflare shape). -/
def wDummyCfEnv : CfEnv :=
  ⟨fun _ => none, fun _ => ⟨200, str "OK", str ""⟩, fun _ => ⟨str "A", str "n", 300, false⟩⟩

/-- A no-account environment for the C8 witness (Google shape). -/
def wDummyGoogleEnv : GoogleEnv :=
  ⟨fun _ => none, fun _ => ⟨200, str "OK", str ""⟩, fun _ => .error (str "bad key"),
   fun _ => str "", fun _ => (str "", 0), 0⟩

/-- Concrete account for the C9 witness and counterexample. -/
def wC9Account : Account := ⟨str "aws1", str "AWS", .awsRoute53, .blue, false, 0⟩

/-- A transport answering 403 to everything. -/
def wC9ListEnv403 : AwsListEnv :=
  ⟨fun _ => ⟨403, str "Forbidden", str ""⟩, str "20130524T000000Z", fun _ => [],
   fun _ _ => []⟩

/-- A transport answering 500 to everything. -/
def wC9ListEnv500 : AwsListEnv :=
  ⟨fun _ => ⟨500, str "Server Error", str ""⟩, str "20130524T000000Z", fun _ => [],
   fun _ _ => []⟩

/-- A write-path environment whose transport answers 500. -/
def wC9UpdateEnv500 : UpdateEnv :=
  ⟨fun _ => some (str "AKID:SECRET"), fun _ => ⟨500, str "Server Error", str "boom"⟩,
   str "20130524T000000Z"⟩

/-- A write-path environment whose transport answers 401. -/
def wC9UpdateEnv401 : UpdateEnv :=
  ⟨fun _ => some (str "AKID:SECRET"), fun _ => ⟨401, str "Unauthorized", str "denied"⟩,
   str "20130524T000000Z"⟩

/-! ## Theorems -/

/-! ## Claim C1: the SigV4 signer against the spec's algorithm -/

/-- The template literal of the source splits the Authorization header around
`algorithm`; the spec writes the merged text. -/
theorem strSplitCredential :
    str "AWS4-HMAC-SHA256 Credential=" = str "AWS4-HMAC-SHA256" ++ str " Credential=" := by
  decide

/-- The template literal of the source splits the Authorization header around
`signedHeaders`; the spec writes the merged text. -/
theorem strSplitSignedHeaders :
    str ", SignedHeaders=host;x-amz-date, Signature=" =
      str ", SignedHeaders=" ++ str "host;x-amz-date" ++ str ", Signature=" := by
  decide

/-- For a URL with no query string, the signer's Authorization value agrees
with the spec's algorithm. -/
theorem awsAuthorizationMatchesSpec (method host pathname : Str)
    (body accessKeyId secretAccessKey amzDate : Str) (hp : pathname ≠ []) :
    awsAuthorization method host pathname [] body accessKeyId secretAccessKey amzDate =
      sigv4SpecAuthorization method pathname [] host body accessKeyId secretAccessKey amzDate := by
  simp only [awsAuthorization, sigv4SpecAuthorization, joinNl, awsRegion, awsService,
    getSignatureKey, strSplitCredential, strSplitSignedHeaders, List.append_nil,
    List.nil_append, List.cons_append, List.singleton_append, List.append_assoc, if_neg hp]

/-- C1 (amended): for every fixed timestamp, access-key id, secret key, method,
query-less URL (parsed `host`/`pathname`, empty `search`; `new URL` never yields
an empty pathname), headers and body, `signRequest` emits exactly the caller's
headers plus `Host`, `X-Amz-Date` and an `Authorization` header byte-identical
to the value of the spec's algorithm (canonical request, string to sign,
chained-HMAC signing key, final header template); in particular an empty body
contributes the payload hash
`e3b0c44298fc1c149afbf4c8996fb92427ae41e4649b934ca495991b7852b855`. -/
theorem c1_aws_sigv4_matches_spec (method host pathname search : Str)
    (headers : List (Str × Str)) (body accessKeyId secretAccessKey amzDate : Str)
    (hq : search = []) (hp : pathname ≠ []) :
    signRequest method host pathname search headers body accessKeyId secretAccessKey amzDate =
      headers ++
        [(str "Host", host), (str "X-Amz-Date", amzDate),
         (str "Authorization",
          sigv4SpecAuthorization method pathname [] host body accessKeyId secretAccessKey
            amzDate)] ∧
    sha256Hex (utf8 []) =
      str "e3b0c44298fc1c149afbf4c8996fb92427ae41e4649b934ca495991b7852b855" := by
  subst hq
  exact ⟨by rw [signRequest, awsAuthorizationMatchesSpec method host pathname body accessKeyId
    secretAccessKey amzDate hp], by decide⟩

/-- Witness for C1 at a concrete query-less request. -/
theorem c1_aws_sigv4_matches_spec_witness :
    signRequest (str "GET") (str "route53.amazonaws.com") (str "/2013-04-01/hostedzone")
        (str "") [] (str "") (str "AKID") (str "SECRET") (str "20130524T000000Z") =
      [] ++
        [(str "Host", str "route53.amazonaws.com"),
         (str "X-Amz-Date", str "20130524T000000Z"),
         (str "Authorization",
          sigv4SpecAuthorization (str "GET") (str "/2013-04-01/hostedzone") []
            (str "route53.amazonaws.com") (str "") (str "AKID") (str "SECRET")
            (str "20130524T000000Z"))] ∧
    sha256Hex (utf8 []) =
      str "e3b0c44298fc1c149afbf4c8996fb92427ae41e4649b934ca495991b7852b855" :=
  c1_aws_sigv4_matches_spec (str "GET") (str "route53.amazonaws.com")
    (str "/2013-04-01/hostedzone") (str "") [] (str "") (str "AKID") (str "SECRET")
    (str "20130524T000000Z") (by decide) (by decide)

set_option maxRecDepth 100000 in
set_option maxHeartbeats 4000000 in
/-- C1 as stated is false for URLs carrying a query string: the source folds the
query into the canonical-URI slot and leaves the canonical-query line empty, so
on `GET https://route53.amazonaws.com/2013-04-01/hostedzone?maxitems=1` the
emitted Authorization value differs from the spec's algorithm. -/
theorem c1_aws_sigv4_query_counterexample :
    awsAuthorization (str "GET") (str "route53.amazonaws.com") (str "/2013-04-01/hostedzone")
        (str "?maxitems=1") (str "") (str "AKIDEXAMPLE")
        (str "wJalrXUtnFEMI") (str "20130524T000000Z") ≠
      sigv4SpecAuthorization (str "GET") (str "/2013-04-01/hostedzone") (str "maxitems=1")
        (str "route53.amazonaws.com") (str "") (str "AKIDEXAMPLE")
        (str "wJalrXUtnFEMI") (str "20130524T000000Z") := by
  decide

/-! ## Claim C4: TTL semantics of the cache -/

/-- Looking up the key just set yields the new entry. -/
theorem lookupEntry_setEntry_self {β : Type} (es : List (Str × β)) (key : Str)
    (e : β) : lookupEntry (setEntry es key e) key = some e := by
  induction es with
  | nil => simp [setEntry, lookupEntry]
  | cons p rest ih =>
    by_cases h : p.1 = key
    · simp [setEntry, lookupEntry, h]
    · simp [setEntry, lookupEntry, h, ih]

/-- A deleted key is gone. -/
theorem lookupEntry_eraseKey_self {β : Type} (es : List (Str × β)) (key : Str) :
    lookupEntry (eraseKey es key) key = none := by
  induction es with
  | nil => simp [eraseKey, lookupEntry]
  | cons p rest ih =>
    by_cases h : p.1 = key
    · simp [eraseKey, h, ih]
    · simp [eraseKey, lookupEntry, h, ih]

/-- C4: after `set k v` at time `t`, `get k` at time `now` returns `v` exactly
when `now - t ≤ ttl`; once the age exceeds the ttl the read returns absent and
evicts the entry, so a subsequent lookup no longer finds it. -/
theorem c4_cache_get_iff_fresh {α : Type} (c : SimpleCache α) (key : Str) (v : α)
    (t now : Nat) :
    (((c.set key v t).get now key).2 = some v ↔ now - t ≤ c.ttlMs) ∧
    (c.ttlMs < now - t → lookupEntry (((c.set key v t).get now key).1).entries key = none) := by
  by_cases h : c.ttlMs < now - t
  · simp [SimpleCache.get, SimpleCache.set, lookupEntry_setEntry_self,
      lookupEntry_eraseKey_self, h]
    omega
  · simp [SimpleCache.get, SimpleCache.set, lookupEntry_setEntry_self, h]
    omega

/-- Witness for C4: a 100ms-ttl cache read 200ms after the write has evicted
the entry. -/
theorem c4_cache_get_iff_fresh_witness :
    (100 < 200 - 0) ∧
    lookupEntry ((((⟨100, []⟩ : SimpleCache Nat).set (str "k") 7 0).get 200
      (str "k")).1).entries (str "k") = none :=
  ⟨by decide, (c4_cache_get_iff_fresh (⟨100, []⟩ : SimpleCache Nat) (str "k") 7 0 200).2
    (by decide)⟩

/-! ## Claim C3: the single-default-per-provider invariant -/

/-- `clearDefault` never changes the provider. -/
theorem clearDefault_provider (p : ProviderKind) (a : Account) :
    (clearDefault p a).provider = a.provider := by
  unfold clearDefault; split <;> rfl

/-- `clearDefault` never sets the default flag. -/
theorem clearDefault_isDefault (p : ProviderKind) (a : Account) :
    (clearDefault p a).isDefault = true → a.isDefault = true := by
  unfold clearDefault; split <;> simp_all

/-- After the clearing pass, no account of the cleared provider is default. -/
theorem clearDefault_of_provider (p : ProviderKind) (a : Account)
    (h : (clearDefault p a).provider = p) : (clearDefault p a).isDefault = false := by
  unfold clearDefault at *
  by_cases hd : a.isDefault <;> by_cases hp : a.provider = p <;> simp_all

/-- `addAccount` preserves the single-default invariant. -/
theorem singleDefault_addAccount (l : List Account) (newId name : Str)
    (provider : ProviderKind) (color : AccountColor) (isDef : Bool) (createdAt : Nat)
    (hs : SingleDefault l) :
    SingleDefault (addAccount l newId name provider color isDef createdAt) := by
  have hmap : List.Pairwise
      (fun a b : Account => a.provider = b.provider → ¬(a.isDefault = true ∧ b.isDefault = true))
      (l.map (clearDefault provider)) := by
    rw [List.pairwise_map]
    refine hs.imp ?_
    intro a b hab hp hdef
    rw [clearDefault_provider, clearDefault_provider] at hp
    exact hab hp ⟨clearDefault_isDefault _ _ hdef.1, clearDefault_isDefault _ _ hdef.2⟩
  unfold addAccount SingleDefault
  cases isDef with
  | false =>
    rw [if_neg Bool.false_ne_true, List.pairwise_append]
    refine ⟨hs, by simp, ?_⟩
    intro a _ b hb
    simp only [List.mem_singleton] at hb
    subst hb
    simp
  | true =>
    rw [if_pos rfl, List.pairwise_append]
    refine ⟨hmap, by simp, ?_⟩
    intro x hx b hb
    simp only [List.mem_singleton] at hb
    subst hb
    simp only [List.mem_map] at hx
    obtain ⟨a, _, rfl⟩ := hx
    intro hp hdef
    exact absurd hdef.1 (by simp [clearDefault_of_provider provider a hp])

/-- `applyNameColor` only touches name and color. -/
theorem applyNameColor_provider (a : Account) (u : AccountUpdates) :
    (applyNameColor a u).provider = a.provider := rfl

/-- `applyNameColor` leaves the default flag alone. -/
theorem applyNameColor_isDefault (a : Account) (u : AccountUpdates) :
    (applyNameColor a u).isDefault = a.isDefault := rfl

/-- `applyUpdate` never changes the provider. -/
theorem applyUpdate_provider (id : Str) (u : AccountUpdates) (t a : Account) :
    (applyUpdate id u t a).provider = a.provider := by
  unfold applyUpdate
  split
  · split <;> rfl
  · split <;> rfl

/-- A non-target account stays default only if it was, and on a truthy update
only when its provider differs from the target's. -/
theorem applyUpdate_other_isDefault (id : Str) (u : AccountUpdates) (t a : Account)
    (ha : a.id ≠ id) :
    (applyUpdate id u t a).isDefault = true →
      a.isDefault = true ∧ (u.isDefault = some true → a.provider ≠ t.provider) := by
  unfold applyUpdate
  rw [if_neg (by simp [ha])]
  split
  · simp
  · intro hd
    refine ⟨hd, fun htrue hp => ?_⟩
    simp_all

/-- Without a truthy `isDefault` update, the target's default flag is kept. -/
theorem applyUpdate_target_isDefault (id : Str) (u : AccountUpdates) (t a : Account)
    (ha : a.id = id) (hu : u.isDefault ≠ some true) :
    (applyUpdate id u t a).isDefault = a.isDefault := by
  unfold applyUpdate
  rw [if_pos (by simp [ha]), if_neg hu]
  rfl

/-- With pairwise-distinct ids, the account `find?` locates is the only member
with that id. -/
theorem find_id_unique (l : List Account) (id : Str) (target : Account)
    (hu : UniqueIds l) (hfind : l.find? (fun a => a.id == id) = some target)
    (a : Account) (hmem : a ∈ l) (ha : a.id = id) : a = target := by
  by_contra hne
  have htm := List.mem_of_find?_eq_some hfind
  have hti : target.id = id := by
    have := List.find?_some hfind
    simpa using this
  exact (hu.forall (fun x y h => (h ∘ Eq.symm)) hmem htm hne) (ha.trans hti.symm)

/-- `updateAccount` preserves the single-default invariant. -/
theorem singleDefault_updateAccount (l : List Account) (id : Str) (u : AccountUpdates)
    (l' : List Account) (hs : SingleDefault l) (hu : UniqueIds l)
    (h : updateAccount l id u = some l') : SingleDefault l' := by
  unfold updateAccount at h
  cases hfind : l.find? (fun a => a.id == id) with
  | none => rw [hfind] at h; exact absurd h (by simp)
  | some target =>
    rw [hfind] at h
    have hl' : l' = l.map (applyUpdate id u target) := by
      simpa using h.symm
    subst hl'
    unfold SingleDefault
    rw [List.pairwise_map]
    have hcomb := hs.and hu
    refine hcomb.imp_of_mem ?_
    intro a b hma hmb hab hp hdef
    rw [applyUpdate_provider, applyUpdate_provider] at hp
    by_cases hia : a.id = id <;> by_cases hib : b.id = id
    · exact hab.2 (hia.trans hib.symm)
    · have hat : a = target := find_id_unique l id target hu hfind a hma hia
      rcases applyUpdate_other_isDefault id u target b hib hdef.2 with ⟨hbd, hbp⟩
      by_cases htrue : u.isDefault = some true
      · exact hbp htrue (hp ▸ hat ▸ rfl)
      · have had := (applyUpdate_target_isDefault id u target a hia htrue) ▸ hdef.1
        exact hab.1 hp ⟨had, hbd⟩
    · have hbt : b = target := find_id_unique l id target hu hfind b hmb hib
      rcases applyUpdate_other_isDefault id u target a hia hdef.1 with ⟨had, hap⟩
      by_cases htrue : u.isDefault = some true
      · exact hap htrue (hbt ▸ hp)
      · have hbd := (applyUpdate_target_isDefault id u target b hib htrue) ▸ hdef.2
        exact hab.1 hp ⟨had, hbd⟩
    · rcases applyUpdate_other_isDefault id u target a hia hdef.1 with ⟨had, _⟩
      rcases applyUpdate_other_isDefault id u target b hib hdef.2 with ⟨hbd, _⟩
      exact hab.1 hp ⟨had, hbd⟩

/-- `deleteAccount` preserves the single-default invariant. -/
theorem singleDefault_deleteAccount (l : List Account) (id : Str) (l' : List Account)
    (hs : SingleDefault l) (h : deleteAccount l id = some l') : SingleDefault l' := by
  unfold deleteAccount at h
  cases hfind : l.findIdx? (fun a => a.id == id) with
  | none => rw [hfind] at h; exact absurd h (by simp)
  | some i =>
    rw [hfind] at h
    have hl' : l' = l.eraseIdx i := by simpa using h.symm
    subst hl'
    exact hs.sublist (List.eraseIdx_sublist l i)

/-- Adding a default account leaves it as the sole default of its provider. -/
theorem addAccount_clears_others (l : List Account) (newId name : Str)
    (provider : ProviderKind) (color : AccountColor) (createdAt : Nat) :
    ∀ a ∈ addAccount l newId name provider color true createdAt,
      a.provider = provider → a.isDefault = true →
      a = { id := newId, name := name, provider := provider, color := color,
            isDefault := true, createdAt := createdAt } := by
  intro a ha hp hd
  unfold addAccount at ha
  rw [if_pos rfl] at ha
  rcases List.mem_append.mp ha with hx | hx
  · simp only [List.mem_map] at hx
    obtain ⟨b, _, rfl⟩ := hx
    have := clearDefault_of_provider provider b hp
    simp_all
  · simpa using hx

/-- A truthy `isDefault` update clears the flag on every other account of the
target's provider, within the same operation. -/
theorem updateAccount_clears_others (l : List Account) (id : Str) (u : AccountUpdates)
    (l' : List Account) (target : Account) (hfind : getById l id = some target)
    (h : updateAccount l id u = some l') (htrue : u.isDefault = some true) :
    ∀ a ∈ l', a.provider = target.provider → a.id ≠ id → a.isDefault = false := by
  unfold updateAccount at h
  unfold getById at hfind
  rw [hfind] at h
  have hl' : l' = l.map (applyUpdate id u target) := by simpa using h.symm
  subst hl'
  intro a ha hp hne
  simp only [List.mem_map] at ha
  obtain ⟨b, _, rfl⟩ := ha
  have hbid : b.id ≠ id := by
    intro hb
    exact hne (by unfold applyUpdate; rw [if_pos (by simp [hb])]; split <;> simpa [applyNameColor])
  by_cases hbd : b.isDefault = true
  · unfold applyUpdate
    rw [if_neg (by simp [hbid]),
      if_pos ⟨htrue, by rw [applyUpdate_provider] at hp; exact hp, hbd⟩]
  · have : (applyUpdate id u target b).isDefault = true → False := fun hd =>
      hbd (applyUpdate_other_isDefault id u target b hbid hd).1
    simpa using this

/-- C3: from a state with pairwise-distinct ids and at most one default per
provider kind, every `AccountManager` mutation (`addAccount`, `updateAccount`,
`deleteAccount`) keeps at most one default per provider kind; moreover adding a
default account, or marking one default through an update, clears the flag on
every other account of the same provider within the same operation. -/
theorem c3_single_default_invariant (l : List Account) (newId name : Str)
    (provider : ProviderKind) (color : AccountColor) (isDef : Bool) (createdAt : Nat)
    (id : Str) (u : AccountUpdates) (hs : SingleDefault l) (hu : UniqueIds l) :
    SingleDefault (addAccount l newId name provider color isDef createdAt) ∧
    (∀ l', updateAccount l id u = some l' → SingleDefault l') ∧
    (∀ l', deleteAccount l id = some l' → SingleDefault l') ∧
    (∀ a ∈ addAccount l newId name provider color true createdAt,
      a.provider = provider → a.isDefault = true →
      a = { id := newId, name := name, provider := provider, color := color,
            isDefault := true, createdAt := createdAt }) ∧
    (∀ target l', getById l id = some target → updateAccount l id u = some l' →
      u.isDefault = some true →
      ∀ a ∈ l', a.provider = target.provider → a.id ≠ id → a.isDefault = false) :=
  ⟨singleDefault_addAccount l newId name provider color isDef createdAt hs,
   fun l' h => singleDefault_updateAccount l id u l' hs hu h,
   fun l' h => singleDefault_deleteAccount l id l' hs h,
   addAccount_clears_others l newId name provider color createdAt,
   fun target l' hfind h htrue =>
     updateAccount_clears_others l id u l' target hfind h htrue⟩

/-- Witness for C3 on a concrete two-account registry. -/
theorem c3_single_default_invariant_witness :
    SingleDefault (addAccount
      [⟨str "a1", str "A", .cloudflare, .blue, true, 0⟩,
       ⟨str "a2", str "B", .cloudflare, .red, false, 1⟩]
      (str "n") (str "N") .cloudflare .green true 5) ∧
    (∀ l', updateAccount
      [⟨str "a1", str "A", .cloudflare, .blue, true, 0⟩,
       ⟨str "a2", str "B", .cloudflare, .red, false, 1⟩]
      (str "a2") ⟨none, none, some true⟩ = some l' → SingleDefault l') ∧
    (∀ l', deleteAccount
      [⟨str "a1", str "A", .cloudflare, .blue, true, 0⟩,
       ⟨str "a2", str "B", .cloudflare, .red, false, 1⟩]
      (str "a2") = some l' → SingleDefault l') ∧
    (∀ a ∈ addAccount
      [⟨str "a1", str "A", .cloudflare, .blue, true, 0⟩,
       ⟨str "a2", str "B", .cloudflare, .red, false, 1⟩]
      (str "n") (str "N") .cloudflare .green true 5,
      a.provider = .cloudflare → a.isDefault = true →
      a = { id := str "n", name := str "N", provider := .cloudflare, color := .green,
            isDefault := true, createdAt := 5 }) ∧
    (∀ target l', getById
      [⟨str "a1", str "A", .cloudflare, .blue, true, 0⟩,
       ⟨str "a2", str "B", .cloudflare, .red, false, 1⟩] (str "a2") = some target →
      updateAccount
        [⟨str "a1", str "A", .cloudflare, .blue, true, 0⟩,
         ⟨str "a2", str "B", .cloudflare, .red, false, 1⟩]
        (str "a2") ⟨none, none, some true⟩ = some l' →
      (⟨none, none, some true⟩ : AccountUpdates).isDefault = some true →
      ∀ a ∈ l', a.provider = target.provider → a.id ≠ str "a2" → a.isDefault = false) :=
  c3_single_default_invariant
    [⟨str "a1", str "A", .cloudflare, .blue, true, 0⟩,
     ⟨str "a2", str "B", .cloudflare, .red, false, 1⟩]
    (str "n") (str "N") .cloudflare .green true 5 (str "a2") ⟨none, none, some true⟩
    (by unfold SingleDefault; decide) (by unfold UniqueIds; decide)

/-! ## Claim C10: the frame of `updateAccount` -/

/-- `applyUpdate` never changes the id. -/
theorem applyUpdate_id (id : Str) (u : AccountUpdates) (t a : Account) :
    (applyUpdate id u t a).id = a.id := by
  unfold applyUpdate
  split
  · split <;> rfl
  · split <;> rfl

/-- `applyUpdate` never changes the creation time. -/
theorem applyUpdate_createdAt (id : Str) (u : AccountUpdates) (t a : Account) :
    (applyUpdate id u t a).createdAt = a.createdAt := by
  unfold applyUpdate
  split
  · split <;> rfl
  · split <;> rfl

/-- Non-target accounts keep their name and color. -/
theorem applyUpdate_other_name_color (id : Str) (u : AccountUpdates) (t a : Account)
    (ha : a.id ≠ id) :
    (applyUpdate id u t a).name = a.name ∧ (applyUpdate id u t a).color = a.color := by
  unfold applyUpdate
  rw [if_neg (by simp [ha])]
  split <;> exact ⟨rfl, rfl⟩

/-- Without a truthy `isDefault` update, non-target default flags are kept. -/
theorem applyUpdate_other_isDefault_of_ne (id : Str) (u : AccountUpdates) (t a : Account)
    (ha : a.id ≠ id) (hu : u.isDefault ≠ some true) :
    (applyUpdate id u t a).isDefault = a.isDefault := by
  unfold applyUpdate
  rw [if_neg (by simp [ha]), if_neg (by simp [hu])]

/-- The target's resulting name, color and default flag. -/
theorem applyUpdate_target_fields (id : Str) (u : AccountUpdates) (t a : Account)
    (ha : a.id = id) :
    (applyUpdate id u t a).name = u.name.getD a.name ∧
    (applyUpdate id u t a).color = u.color.getD a.color ∧
    (applyUpdate id u t a).isDefault =
      (if u.isDefault = some true then true else a.isDefault) := by
  unfold applyUpdate
  rw [if_pos (by simp [ha])]
  split <;> simp_all [applyNameColor]

/-- C10: a successful `updateAccount` keeps the list length, never changes any
account's id, provider or creation time, leaves every non-target account's name
and color alone and can only clear (never set) its default flag, leaves every
default flag unchanged unless `isDefault: true` was passed, and overlays exactly
the supplied name/color/default updates onto the target. -/
theorem c10_update_frame (l : List Account) (id : Str) (u : AccountUpdates)
    (l' : List Account) (h : updateAccount l id u = some l') :
    l'.length = l.length ∧
    ∀ i (hi : i < l.length) (hi' : i < l'.length),
      (l'.get ⟨i, hi'⟩).id = (l.get ⟨i, hi⟩).id ∧
      (l'.get ⟨i, hi'⟩).provider = (l.get ⟨i, hi⟩).provider ∧
      (l'.get ⟨i, hi'⟩).createdAt = (l.get ⟨i, hi⟩).createdAt ∧
      (u.isDefault ≠ some true →
        (l'.get ⟨i, hi'⟩).isDefault = (l.get ⟨i, hi⟩).isDefault) ∧
      ((l.get ⟨i, hi⟩).id ≠ id →
        (l'.get ⟨i, hi'⟩).name = (l.get ⟨i, hi⟩).name ∧
        (l'.get ⟨i, hi'⟩).color = (l.get ⟨i, hi⟩).color ∧
        ((l'.get ⟨i, hi'⟩).isDefault = true → (l.get ⟨i, hi⟩).isDefault = true)) ∧
      ((l.get ⟨i, hi⟩).id = id →
        (l'.get ⟨i, hi'⟩).name = u.name.getD (l.get ⟨i, hi⟩).name ∧
        (l'.get ⟨i, hi'⟩).color = u.color.getD (l.get ⟨i, hi⟩).color ∧
        (l'.get ⟨i, hi'⟩).isDefault =
          (if u.isDefault = some true then true else (l.get ⟨i, hi⟩).isDefault)) := by
  unfold updateAccount at h
  cases hfind : l.find? (fun a => a.id == id) with
  | none => rw [hfind] at h; exact absurd h (by simp)
  | some target =>
    rw [hfind] at h
    have hl' : l' = l.map (applyUpdate id u target) := by simpa using h.symm
    subst hl'
    refine ⟨List.length_map l _, ?_⟩
    intro i hi hi'
    have hg : (l.map (applyUpdate id u target)).get ⟨i, hi'⟩ =
        applyUpdate id u target (l.get ⟨i, hi⟩) := by
      simp
    rw [hg]
    set a := l.get ⟨i, hi⟩ with ha
    refine ⟨applyUpdate_id id u target a, applyUpdate_provider id u target a,
      applyUpdate_createdAt id u target a, ?_, ?_, ?_⟩
    · intro hu
      by_cases hid : a.id = id
      · exact (applyUpdate_target_fields id u target a hid).2.2.trans (by simp [hu])
      · exact applyUpdate_other_isDefault_of_ne id u target a hid hu
    · intro hid
      refine ⟨(applyUpdate_other_name_color id u target a hid).1,
        (applyUpdate_other_name_color id u target a hid).2, ?_⟩
      intro hd
      exact (applyUpdate_other_isDefault id u target a hid hd).1
    · intro hid
      exact applyUpdate_target_fields id u target a hid

/-- Witness for C10 on a concrete two-account registry. -/
theorem c10_update_frame_witness :
    ([⟨str "a1", str "A", .cloudflare, .blue, false, 0⟩,
      ⟨str "a2", str "B", .cloudflare, .red, true, 1⟩] : List Account).length =
      ([⟨str "a1", str "A", .cloudflare, .blue, true, 0⟩,
        ⟨str "a2", str "B", .cloudflare, .red, false, 1⟩] : List Account).length ∧
    ∀ i (hi : i < ([⟨str "a1", str "A", .cloudflare, .blue, true, 0⟩,
        ⟨str "a2", str "B", .cloudflare, .red, false, 1⟩] : List Account).length)
      (hi' : i < ([⟨str "a1", str "A", .cloudflare, .blue, false, 0⟩,
        ⟨str "a2", str "B", .cloudflare, .red, true, 1⟩] : List Account).length),
      (([⟨str "a1", str "A", .cloudflare, .blue, false, 0⟩,
         ⟨str "a2", str "B", .cloudflare, .red, true, 1⟩] : List Account).get ⟨i, hi'⟩).id =
        (([⟨str "a1", str "A", .cloudflare, .blue, true, 0⟩,
           ⟨str "a2", str "B", .cloudflare, .red, false, 1⟩] : List Account).get ⟨i, hi⟩).id ∧
      (([⟨str "a1", str "A", .cloudflare, .blue, false, 0⟩,
         ⟨str "a2", str "B", .cloudflare, .red, true, 1⟩] : List Account).get ⟨i, hi'⟩).provider =
        (([⟨str "a1", str "A", .cloudflare, .blue, true, 0⟩,
           ⟨str "a2", str "B", .cloudflare, .red, false, 1⟩] : List Account).get
          ⟨i, hi⟩).provider ∧
      (([⟨str "a1", str "A", .cloudflare, .blue, false, 0⟩,
         ⟨str "a2", str "B", .cloudflare, .red, true, 1⟩] : List Account).get
          ⟨i, hi'⟩).createdAt =
        (([⟨str "a1", str "A", .cloudflare, .blue, true, 0⟩,
           ⟨str "a2", str "B", .cloudflare, .red, false, 1⟩] : List Account).get
          ⟨i, hi⟩).createdAt ∧
      ((⟨none, none, some true⟩ : AccountUpdates).isDefault ≠ some true →
        (([⟨str "a1", str "A", .cloudflare, .blue, false, 0⟩,
           ⟨str "a2", str "B", .cloudflare, .red, true, 1⟩] : List Account).get
            ⟨i, hi'⟩).isDefault =
          (([⟨str "a1", str "A", .cloudflare, .blue, true, 0⟩,
             ⟨str "a2", str "B", .cloudflare, .red, false, 1⟩] : List Account).get
            ⟨i, hi⟩).isDefault) ∧
      ((([⟨str "a1", str "A", .cloudflare, .blue, true, 0⟩,
          ⟨str "a2", str "B", .cloudflare, .red, false, 1⟩] : List Account).get
          ⟨i, hi⟩).id ≠ str "a2" →
        (([⟨str "a1", str "A", .cloudflare, .blue, false, 0⟩,
           ⟨str "a2", str "B", .cloudflare, .red, true, 1⟩] : List Account).get
            ⟨i, hi'⟩).name =
          (([⟨str "a1", str "A", .cloudflare, .blue, true, 0⟩,
             ⟨str "a2", str "B", .cloudflare, .red, false, 1⟩] : List Account).get
            ⟨i, hi⟩).name ∧
        (([⟨str "a1", str "A", .cloudflare, .blue, false, 0⟩,
           ⟨str "a2", str "B", .cloudflare, .red, true, 1⟩] : List Account).get
            ⟨i, hi'⟩).color =
          (([⟨str "a1", str "A", .cloudflare, .blue, true, 0⟩,
             ⟨str "a2", str "B", .cloudflare, .red, false, 1⟩] : List Account).get
            ⟨i, hi⟩).color ∧
        ((([⟨str "a1", str "A", .cloudflare, .blue, false, 0⟩,
            ⟨str "a2", str "B", .cloudflare, .red, true, 1⟩] : List Account).get
            ⟨i, hi'⟩).isDefault = true →
          (([⟨str "a1", str "A", .cloudflare, .blue, true, 0⟩,
             ⟨str "a2", str "B", .cloudflare, .red, false, 1⟩] : List Account).get
            ⟨i, hi⟩).isDefault = true)) ∧
      ((([⟨str "a1", str "A", .cloudflare, .blue, true, 0⟩,
          ⟨str "a2", str "B", .cloudflare, .red, false, 1⟩] : List Account).get
          ⟨i, hi⟩).id = str "a2" →
        (([⟨str "a1", str "A", .cloudflare, .blue, false, 0⟩,
           ⟨str "a2", str "B", .cloudflare, .red, true, 1⟩] : List Account).get
            ⟨i, hi'⟩).name =
          (⟨none, none, some true⟩ : AccountUpdates).name.getD
            ((([⟨str "a1", str "A", .cloudflare, .blue, true, 0⟩,
                ⟨str "a2", str "B", .cloudflare, .red, false, 1⟩] : List Account).get
              ⟨i, hi⟩).name) ∧
        (([⟨str "a1", str "A", .cloudflare, .blue, false, 0⟩,
           ⟨str "a2", str "B", .cloudflare, .red, true, 1⟩] : List Account).get
            ⟨i, hi'⟩).color =
          (⟨none, none, some true⟩ : AccountUpdates).color.getD
            ((([⟨str "a1", str "A", .cloudflare, .blue, true, 0⟩,
                ⟨str "a2", str "B", .cloudflare, .red, false, 1⟩] : List Account).get
              ⟨i, hi⟩).color) ∧
        (([⟨str "a1", str "A", .cloudflare, .blue, false, 0⟩,
           ⟨str "a2", str "B", .cloudflare, .red, true, 1⟩] : List Account).get
            ⟨i, hi'⟩).isDefault =
          (if (⟨none, none, some true⟩ : AccountUpdates).isDefault = some true then true
           else (([⟨str "a1", str "A", .cloudflare, .blue, true, 0⟩,
                   ⟨str "a2", str "B", .cloudflare, .red, false, 1⟩] : List Account).get
             ⟨i, hi⟩).isDefault)) :=
  c10_update_frame
    [⟨str "a1", str "A", .cloudflare, .blue, true, 0⟩,
     ⟨str "a2", str "B", .cloudflare, .red, false, 1⟩]
    (str "a2") ⟨none, none, some true⟩
    [⟨str "a1", str "A", .cloudflare, .blue, false, 0⟩,
     ⟨str "a2", str "B", .cloudflare, .red, true, 1⟩]
    (by decide)

/-! ## Claim C2: one failing account degrades to exactly one error sentinel -/

/-- When every account fetch succeeds, the aggregate is the concatenation of
the per-account resources. -/
theorem aggregate_ok {R : Type} (f : Account → PerAccount R) (e : Account → R)
    (L : List Account) (ds : Account → List R)
    (hok : ∀ a ∈ L, f a = .fetched (ds a)) :
    aggregate f e L = L.flatMap ds := by
  induction L with
  | nil => rfl
  | cons a rest ih =>
    rw [aggregate, hok a (by simp), List.flatMap_cons, ih (fun b hb => hok b (by simp [hb]))]

/-- The aggregation loop distributes over account-list concatenation. -/
theorem aggregate_append {R : Type} (f : Account → PerAccount R) (e : Account → R)
    (l1 l2 : List Account) :
    aggregate f e (l1 ++ l2) = aggregate f e l1 ++ aggregate f e l2 := by
  induction l1 with
  | nil => rfl
  | cons a rest ih => rw [List.cons_append, aggregate, aggregate, ih, List.append_assoc]

/-- With exactly one throwing account, the aggregate is the other accounts'
resources with the error sentinel in the failing account's position. -/
theorem aggregate_one_failure {R : Type} (f : Account → PerAccount R) (e : Account → R)
    (pre post : List Account) (failing : Account) (ds : Account → List R)
    (hpre : ∀ a ∈ pre, f a = .fetched (ds a)) (hpost : ∀ a ∈ post, f a = .fetched (ds a))
    (hfail : f failing = .thrown) :
    aggregate f e (pre ++ failing :: post) =
      pre.flatMap ds ++ e failing :: post.flatMap ds := by
  rw [aggregate_append, aggregate_ok f e pre ds hpre, aggregate, hfail,
    aggregate_ok f e post ds hpost]
  simp

/-- Resources none of which carry the tag filter to nothing. -/
theorem filter_flatMap_nil {R : Type} (p : R → Bool) (L : List Account)
    (ds : Account → List R) (h : ∀ a ∈ L, ∀ d ∈ ds a, p d = false) :
    (L.flatMap ds).filter p = [] := by
  rw [List.filter_eq_nil_iff]
  intro d hd
  rw [List.mem_flatMap] at hd
  obtain ⟨a, ha, hda⟩ := hd
  simp [h a ha d hda]

/-- Every error sentinel id carries the tag. -/
theorem hasErrorTag_sentinel (s t : Str) : hasErrorTag (str "__error_" ++ s ++ t) = true := by
  unfold hasErrorTag
  rw [List.append_assoc, List.take_left' (show (str "__error_").length = 8 by decide)]
  simp

/-- The cached aggregation with a cold cache and exactly one failing account:
shared backbone of the per-adapter statements. -/
theorem cachedAgg_one_failure {R : Type} (noAcc : R) (errS : Account → R) (p : R → Bool)
    (key : Str) (accts pre post : List Account) (failing : Account)
    (per : Account → PerAccount R) (ds : Account → List R)
    (cache : SimpleCache (List R)) (now : Nat)
    (hacc : accts = pre ++ failing :: post)
    (hcold : lookupEntry cache.entries key = none)
    (hpre : ∀ a ∈ pre, per a = .fetched (ds a))
    (hpost : ∀ a ∈ post, per a = .fetched (ds a))
    (hfail : per failing = .thrown) :
    (if accts = [] then ([noAcc], cache)
     else cache.getOrFetch now key (aggregate per errS accts)).1 =
      pre.flatMap ds ++ errS failing :: post.flatMap ds ∧
    ((∀ a ∈ pre, ∀ d ∈ ds a, p d = false) → (∀ a ∈ post, ∀ d ∈ ds a, p d = false) →
      p (errS failing) = true →
      (if accts = [] then ([noAcc], cache)
       else cache.getOrFetch now key (aggregate per errS accts)).1.filter p =
        [errS failing]) := by
  subst hacc
  rw [if_neg (by simp)]
  have hfetch : (cache.getOrFetch now key
      (aggregate per errS (pre ++ failing :: post))).1 =
      aggregate per errS (pre ++ failing :: post) := by
    unfold SimpleCache.getOrFetch SimpleCache.get
    rw [hcold]
  rw [hfetch, aggregate_one_failure per errS pre post failing ds hpre hpost hfail]
  refine ⟨rfl, fun hcp hcq hsent => ?_⟩
  rw [List.filter_append, List.filter_cons, filter_flatMap_nil p pre ds hcp,
    filter_flatMap_nil p post ds hcq]
  simp [hsent]

/-- The AWS instance of the one-failure aggregation property. -/
theorem c2AwsBlock (accounts : List Account) (per : Account → PerAccount AwsDomain)
    (ds : Account → List AwsDomain) (cache : SimpleCache (List AwsDomain)) (now : Nat)
    (pre post : List Account) (failing : Account)
    (hacc : getByProvider accounts .awsRoute53 = pre ++ failing :: post)
    (hcold : lookupEntry cache.entries (str "all-domains") = none)
    (hpre : ∀ a ∈ pre, per a = .fetched (ds a))
    (hpost : ∀ a ∈ post, per a = .fetched (ds a))
    (hfail : per failing = .thrown) :
    (awsListDomains accounts per cache now).1 =
      pre.flatMap ds ++ awsErrorDomain failing :: post.flatMap ds ∧
    (awsErrorDomain failing).accountId = failing.id ∧
    (awsErrorDomain failing).accountName = failing.name ∧
    (awsErrorDomain failing).accountColor = accountColorMap failing.color ∧
    ((∀ a ∈ pre, ∀ d ∈ ds a, hasErrorTag d.id = false) →
     (∀ a ∈ post, ∀ d ∈ ds a, hasErrorTag d.id = false) →
     ((awsListDomains accounts per cache now).1.filter (fun d => hasErrorTag d.id)) =
       [awsErrorDomain failing]) := by
  have h := cachedAgg_one_failure awsNoAccountDomain awsErrorDomain
    (fun d => hasErrorTag d.id) (str "all-domains") (getByProvider accounts .awsRoute53)
    pre post failing per ds cache now hacc hcold hpre hpost hfail
  exact ⟨h.1, rfl, rfl, rfl, fun hcp hcq => h.2 hcp hcq (hasErrorTag_sentinel failing.id _)⟩

/-- The Google instance of the one-failure aggregation property. -/
theorem c2GoogleBlock (accounts : List Account) (per : Account → PerAccount GoogleDomain)
    (ds : Account → List GoogleDomain) (cache : SimpleCache (List GoogleDomain)) (now : Nat)
    (pre post : List Account) (failing : Account)
    (hacc : getByProvider accounts .googleDns = pre ++ failing :: post)
    (hcold : lookupEntry cache.entries (str "all-domains") = none)
    (hpre : ∀ a ∈ pre, per a = .fetched (ds a))
    (hpost : ∀ a ∈ post, per a = .fetched (ds a))
    (hfail : per failing = .thrown) :
    (googleListDomains accounts per cache now).1 =
      pre.flatMap ds ++ googleErrorDomain failing :: post.flatMap ds ∧
    (googleErrorDomain failing).accountId = failing.id ∧
    (googleErrorDomain failing).accountName = failing.name ∧
    (googleErrorDomain failing).accountColor = accountColorMap failing.color ∧
    ((∀ a ∈ pre, ∀ d ∈ ds a, hasErrorTag d.id = false) →
     (∀ a ∈ post, ∀ d ∈ ds a, hasErrorTag d.id = false) →
     ((googleListDomains accounts per cache now).1.filter (fun d => hasErrorTag d.id)) =
       [googleErrorDomain failing]) := by
  have h := cachedAgg_one_failure googleNoAccountDomain googleErrorDomain
    (fun d => hasErrorTag d.id) (str "all-domains") (getByProvider accounts .googleDns)
    pre post failing per ds cache now hacc hcold hpre hpost hfail
  exact ⟨h.1, rfl, rfl, rfl, fun hcp hcq => h.2 hcp hcq (hasErrorTag_sentinel failing.id _)⟩

/-- The Cloudflare instance of the one-failure aggregation property. -/
theorem c2CloudflareBlock (accounts : List Account)
    (per : Account → PerAccount CloudflareDomain) (ds : Account → List CloudflareDomain)
    (cache : SimpleCache (List CloudflareDomain)) (now : Nat)
    (pre post : List Account) (failing : Account)
    (hacc : getByProvider accounts .cloudflare = pre ++ failing :: post)
    (hcold : lookupEntry cache.entries (str "all-domains") = none)
    (hpre : ∀ a ∈ pre, per a = .fetched (ds a))
    (hpost : ∀ a ∈ post, per a = .fetched (ds a))
    (hfail : per failing = .thrown) :
    (cloudflareListDomains accounts per cache now).1 =
      pre.flatMap ds ++ cloudflareErrorDomain failing :: post.flatMap ds ∧
    (cloudflareErrorDomain failing).accountId = failing.id ∧
    (cloudflareErrorDomain failing).accountName = failing.name ∧
    (cloudflareErrorDomain failing).accountColor = accountColorMap failing.color ∧
    ((∀ a ∈ pre, ∀ d ∈ ds a, hasErrorTag d.id = false) →
     (∀ a ∈ post, ∀ d ∈ ds a, hasErrorTag d.id = false) →
     ((cloudflareListDomains accounts per cache now).1.filter
        (fun d => hasErrorTag d.id)) = [cloudflareErrorDomain failing]) := by
  have h := cachedAgg_one_failure cloudflareNoAccountDomain cloudflareErrorDomain
    (fun d => hasErrorTag d.id) (str "all-domains") (getByProvider accounts .cloudflare)
    pre post failing per ds cache now hacc hcold hpre hpost hfail
  exact ⟨h.1, rfl, rfl, rfl, fun hcp hcq => h.2 hcp hcq (hasErrorTag_sentinel failing.id _)⟩

/-- The Hetzner instance of the one-failure aggregation property. -/
theorem c2HetznerBlock (accounts : List Account) (per : Account → PerAccount HetznerServer)
    (ds : Account → List HetznerServer) (cache : SimpleCache (List HetznerServer)) (now : Nat)
    (pre post : List Account) (failing : Account)
    (hacc : getByProvider accounts .hetznerCloud = pre ++ failing :: post)
    (hcold : lookupEntry cache.entries (str "all-servers") = none)
    (hpre : ∀ a ∈ pre, per a = .fetched (ds a))
    (hpost : ∀ a ∈ post, per a = .fetched (ds a))
    (hfail : per failing = .thrown) :
    (hetznerListServers accounts per cache now).1 =
      pre.flatMap ds ++ hetznerErrorServer failing :: post.flatMap ds ∧
    (hetznerErrorServer failing).accountId = failing.id ∧
    (hetznerErrorServer failing).accountName = failing.name ∧
    (hetznerErrorServer failing).accountColor = accountColorMap failing.color ∧
    ((∀ a ∈ pre, ∀ d ∈ ds a, hasErrorTag d.id = false) →
     (∀ a ∈ post, ∀ d ∈ ds a, hasErrorTag d.id = false) →
     ((hetznerListServers accounts per cache now).1.filter
        (fun d => hasErrorTag d.id)) = [hetznerErrorServer failing]) := by
  have h := cachedAgg_one_failure hetznerNoAccountServer hetznerErrorServer
    (fun d => hasErrorTag d.id) (str "all-servers") (getByProvider accounts .hetznerCloud)
    pre post failing per ds cache now hacc hcold hpre hpost hfail
  exact ⟨h.1, rfl, rfl, rfl, fun hcp hcq => h.2 hcp hcq (hasErrorTag_sentinel failing.id _)⟩

/-- C2: for every aggregated list operation (AWS/Google/Cloudflare
`listDomains`, Hetzner `listServers`) over a configured account list in which
exactly one account's per-account work throws and every other account's fetch
succeeds, a cold-cache call returns the other accounts' normalized resources
(in account order) plus exactly one error sentinel carrying the failing
account's id, name and color — and, as the operations are total functions, no
exception escapes the aggregation call. -/
theorem c2_aggregation_partial_failure :
    (∀ (accounts : List Account) (per : Account → PerAccount AwsDomain)
       (ds : Account → List AwsDomain) (cache : SimpleCache (List AwsDomain)) (now : Nat)
       (pre post : List Account) (failing : Account),
      getByProvider accounts .awsRoute53 = pre ++ failing :: post →
      lookupEntry cache.entries (str "all-domains") = none →
      (∀ a ∈ pre, per a = .fetched (ds a)) →
      (∀ a ∈ post, per a = .fetched (ds a)) →
      per failing = .thrown →
      (awsListDomains accounts per cache now).1 =
        pre.flatMap ds ++ awsErrorDomain failing :: post.flatMap ds ∧
      (awsErrorDomain failing).accountId = failing.id ∧
      (awsErrorDomain failing).accountName = failing.name ∧
      (awsErrorDomain failing).accountColor = accountColorMap failing.color ∧
      ((∀ a ∈ pre, ∀ d ∈ ds a, hasErrorTag d.id = false) →
       (∀ a ∈ post, ∀ d ∈ ds a, hasErrorTag d.id = false) →
       ((awsListDomains accounts per cache now).1.filter (fun d => hasErrorTag d.id)) =
         [awsErrorDomain failing])) ∧
    (∀ (accounts : List Account) (per : Account → PerAccount GoogleDomain)
       (ds : Account → List GoogleDomain) (cache : SimpleCache (List GoogleDomain))
       (now : Nat) (pre post : List Account) (failing : Account),
      getByProvider accounts .googleDns = pre ++ failing :: post →
      lookupEntry cache.entries (str "all-domains") = none →
      (∀ a ∈ pre, per a = .fetched (ds a)) →
      (∀ a ∈ post, per a = .fetched (ds a)) →
      per failing = .thrown →
      (googleListDomains accounts per cache now).1 =
        pre.flatMap ds ++ googleErrorDomain failing :: post.flatMap ds ∧
      (googleErrorDomain failing).accountId = failing.id ∧
      (googleErrorDomain failing).accountName = failing.name ∧
      (googleErrorDomain failing).accountColor = accountColorMap failing.color ∧
      ((∀ a ∈ pre, ∀ d ∈ ds a, hasErrorTag d.id = false) →
       (∀ a ∈ post, ∀ d ∈ ds a, hasErrorTag d.id = false) →
       ((googleListDomains accounts per cache now).1.filter (fun d => hasErrorTag d.id)) =
         [googleErrorDomain failing])) ∧
    (∀ (accounts : List Account) (per : Account → PerAccount CloudflareDomain)
       (ds : Account → List CloudflareDomain) (cache : SimpleCache (List CloudflareDomain))
       (now : Nat) (pre post : List Account) (failing : Account),
      getByProvider accounts .cloudflare = pre ++ failing :: post →
      lookupEntry cache.entries (str "all-domains") = none →
      (∀ a ∈ pre, per a = .fetched (ds a)) →
      (∀ a ∈ post, per a = .fetched (ds a)) →
      per failing = .thrown →
      (cloudflareListDomains accounts per cache now).1 =
        pre.flatMap ds ++ cloudflareErrorDomain failing :: post.flatMap ds ∧
      (cloudflareErrorDomain failing).accountId = failing.id ∧
      (cloudflareErrorDomain failing).accountName = failing.name ∧
      (cloudflareErrorDomain failing).accountColor = accountColorMap failing.color ∧
      ((∀ a ∈ pre, ∀ d ∈ ds a, hasErrorTag d.id = false) →
       (∀ a ∈ post, ∀ d ∈ ds a, hasErrorTag d.id = false) →
       ((cloudflareListDomains accounts per cache now).1.filter
          (fun d => hasErrorTag d.id)) = [cloudflareErrorDomain failing])) ∧
    (∀ (accounts : List Account) (per : Account → PerAccount HetznerServer)
       (ds : Account → List HetznerServer) (cache : SimpleCache (List HetznerServer))
       (now : Nat) (pre post : List Account) (failing : Account),
      getByProvider accounts .hetznerCloud = pre ++ failing :: post →
      lookupEntry cache.entries (str "all-servers") = none →
      (∀ a ∈ pre, per a = .fetched (ds a)) →
      (∀ a ∈ post, per a = .fetched (ds a)) →
      per failing = .thrown →
      (hetznerListServers accounts per cache now).1 =
        pre.flatMap ds ++ hetznerErrorServer failing :: post.flatMap ds ∧
      (hetznerErrorServer failing).accountId = failing.id ∧
      (hetznerErrorServer failing).accountName = failing.name ∧
      (hetznerErrorServer failing).accountColor = accountColorMap failing.color ∧
      ((∀ a ∈ pre, ∀ d ∈ ds a, hasErrorTag d.id = false) →
       (∀ a ∈ post, ∀ d ∈ ds a, hasErrorTag d.id = false) →
       ((hetznerListServers accounts per cache now).1.filter
          (fun d => hasErrorTag d.id)) = [hetznerErrorServer failing])) :=
  ⟨c2AwsBlock, c2GoogleBlock, c2CloudflareBlock, c2HetznerBlock⟩

/-- Witness for C2: one configured account per adapter whose work throws. -/
theorem c2_aggregation_partial_failure_witness :
    ((awsListDomains [wAwsAccount] (fun _ => .thrown) ⟨30000, []⟩ 0).1 =
      ([] : List Account).flatMap (fun _ => ([] : List AwsDomain)) ++
        awsErrorDomain wAwsAccount ::
          ([] : List Account).flatMap (fun _ => ([] : List AwsDomain)) ∧
     (awsErrorDomain wAwsAccount).accountId = wAwsAccount.id ∧
     (awsErrorDomain wAwsAccount).accountName = wAwsAccount.name ∧
     (awsErrorDomain wAwsAccount).accountColor = accountColorMap wAwsAccount.color ∧
     ((∀ a ∈ ([] : List Account), ∀ d ∈ ([] : List AwsDomain), hasErrorTag d.id = false) →
      (∀ a ∈ ([] : List Account), ∀ d ∈ ([] : List AwsDomain), hasErrorTag d.id = false) →
      ((awsListDomains [wAwsAccount] (fun _ => .thrown) ⟨30000, []⟩ 0).1.filter
         (fun d => hasErrorTag d.id)) = [awsErrorDomain wAwsAccount])) ∧
    ((googleListDomains [wGoogleAccount] (fun _ => .thrown) ⟨30000, []⟩ 0).1 =
      ([] : List Account).flatMap (fun _ => ([] : List GoogleDomain)) ++
        googleErrorDomain wGoogleAccount ::
          ([] : List Account).flatMap (fun _ => ([] : List GoogleDomain)) ∧
     (googleErrorDomain wGoogleAccount).accountId = wGoogleAccount.id ∧
     (googleErrorDomain wGoogleAccount).accountName = wGoogleAccount.name ∧
     (googleErrorDomain wGoogleAccount).accountColor = accountColorMap wGoogleAccount.color ∧
     ((∀ a ∈ ([] : List Account), ∀ d ∈ ([] : List GoogleDomain), hasErrorTag d.id = false) →
      (∀ a ∈ ([] : List Account), ∀ d ∈ ([] : List GoogleDomain), hasErrorTag d.id = false) →
      ((googleListDomains [wGoogleAccount] (fun _ => .thrown) ⟨30000, []⟩ 0).1.filter
         (fun d => hasErrorTag d.id)) = [googleErrorDomain wGoogleAccount])) ∧
    ((cloudflareListDomains [wCfAccount] (fun _ => .thrown) ⟨30000, []⟩ 0).1 =
      ([] : List Account).flatMap (fun _ => ([] : List CloudflareDomain)) ++
        cloudflareErrorDomain wCfAccount ::
          ([] : List Account).flatMap (fun _ => ([] : List CloudflareDomain)) ∧
     (cloudflareErrorDomain wCfAccount).accountId = wCfAccount.id ∧
     (cloudflareErrorDomain wCfAccount).accountName = wCfAccount.name ∧
     (cloudflareErrorDomain wCfAccount).accountColor = accountColorMap wCfAccount.color ∧
     ((∀ a ∈ ([] : List Account), ∀ d ∈ ([] : List CloudflareDomain),
         hasErrorTag d.id = false) →
      (∀ a ∈ ([] : List Account), ∀ d ∈ ([] : List CloudflareDomain),
         hasErrorTag d.id = false) →
      ((cloudflareListDomains [wCfAccount] (fun _ => .thrown) ⟨30000, []⟩ 0).1.filter
         (fun d => hasErrorTag d.id)) = [cloudflareErrorDomain wCfAccount])) ∧
    ((hetznerListServers [wHetznerAccount] (fun _ => .thrown) ⟨30000, []⟩ 0).1 =
      ([] : List Account).flatMap (fun _ => ([] : List HetznerServer)) ++
        hetznerErrorServer wHetznerAccount ::
          ([] : List Account).flatMap (fun _ => ([] : List HetznerServer)) ∧
     (hetznerErrorServer wHetznerAccount).accountId = wHetznerAccount.id ∧
     (hetznerErrorServer wHetznerAccount).accountName = wHetznerAccount.name ∧
     (hetznerErrorServer wHetznerAccount).accountColor =
       accountColorMap wHetznerAccount.color ∧
     ((∀ a ∈ ([] : List Account), ∀ d ∈ ([] : List HetznerServer), hasErrorTag d.id = false) →
      (∀ a ∈ ([] : List Account), ∀ d ∈ ([] : List HetznerServer), hasErrorTag d.id = false) →
      ((hetznerListServers [wHetznerAccount] (fun _ => .thrown) ⟨30000, []⟩ 0).1.filter
         (fun d => hasErrorTag d.id)) = [hetznerErrorServer wHetznerAccount])) :=
  ⟨c2_aggregation_partial_failure.1 [wAwsAccount] (fun _ => .thrown) (fun _ => [])
     ⟨30000, []⟩ 0 [] [] wAwsAccount (by decide) rfl (by simp) (by simp) rfl,
   c2_aggregation_partial_failure.2.1 [wGoogleAccount] (fun _ => .thrown) (fun _ => [])
     ⟨30000, []⟩ 0 [] [] wGoogleAccount (by decide) rfl (by simp) (by simp) rfl,
   c2_aggregation_partial_failure.2.2.1 [wCfAccount] (fun _ => .thrown) (fun _ => [])
     ⟨30000, []⟩ 0 [] [] wCfAccount (by decide) rfl (by simp) (by simp) rfl,
   c2_aggregation_partial_failure.2.2.2 [wHetznerAccount] (fun _ => .thrown) (fun _ => [])
     ⟨30000, []⟩ 0 [] [] wHetznerAccount (by decide) rfl (by simp) (by simp) rfl⟩

/-! ## Claim C7: zero configured accounts yield the sentinel resource -/

/-- C7 (amended): with zero accounts configured for the adapter's provider
kind, each account-based list operation (AWS/Google/Cloudflare `listDomains`,
Hetzner `listServers`) returns exactly one `__no_account__`-tagged sentinel —
with an empty records array (DNS) or `unknown` status and empty IP (compute) —
instead of throwing or returning an empty list; IONOS, which keys off its
legacy token instead of the registry, returns exactly one `__no_token__`-tagged
sentinel when no token is configured. -/
theorem c7_zero_accounts_sentinel :
    (∀ (accounts : List Account) (per : Account → PerAccount AwsDomain)
       (cache : SimpleCache (List AwsDomain)) (now : Nat),
      getByProvider accounts .awsRoute53 = [] →
      awsListDomains accounts per cache now = ([awsNoAccountDomain], cache)) ∧
    (∀ (accounts : List Account) (per : Account → PerAccount GoogleDomain)
       (cache : SimpleCache (List GoogleDomain)) (now : Nat),
      getByProvider accounts .googleDns = [] →
      googleListDomains accounts per cache now = ([googleNoAccountDomain], cache)) ∧
    (∀ (accounts : List Account) (per : Account → PerAccount CloudflareDomain)
       (cache : SimpleCache (List CloudflareDomain)) (now : Nat),
      getByProvider accounts .cloudflare = [] →
      cloudflareListDomains accounts per cache now = ([cloudflareNoAccountDomain], cache)) ∧
    (∀ (accounts : List Account) (per : Account → PerAccount HetznerServer)
       (cache : SimpleCache (List HetznerServer)) (now : Nat),
      getByProvider accounts .hetznerCloud = [] →
      hetznerListServers accounts per cache now = ([hetznerNoAccountServer], cache)) ∧
    (∀ (fetched : List Domain) (cache : SimpleCache (List Domain)) (now : Nat),
      ionosListDomains none fetched cache now = ([ionosNoTokenDomain], cache)) ∧
    awsNoAccountDomain.id = str "__no_account__" ∧ awsNoAccountDomain.records = [] ∧
    googleNoAccountDomain.id = str "__no_account__" ∧ googleNoAccountDomain.records = [] ∧
    cloudflareNoAccountDomain.id = str "__no_account__" ∧
    cloudflareNoAccountDomain.records = [] ∧
    hetznerNoAccountServer.id = str "__no_account__" ∧
    hetznerNoAccountServer.status = str "unknown" ∧
    hetznerNoAccountServer.publicIp = str "" ∧
    ionosNoTokenDomain.id = str "__no_token__" ∧ ionosNoTokenDomain.records = [] := by
  refine ⟨?_, ?_, ?_, ?_, ?_, rfl, rfl, rfl, rfl, rfl, rfl, rfl, rfl, rfl, rfl, rfl⟩
  · intro accounts per cache now hacc
    unfold awsListDomains
    rw [hacc]
    rfl
  · intro accounts per cache now hacc
    unfold googleListDomains
    rw [hacc]
    rfl
  · intro accounts per cache now hacc
    unfold cloudflareListDomains
    rw [hacc]
    rfl
  · intro accounts per cache now hacc
    unfold hetznerListServers
    rw [hacc]
    rfl
  · intro fetched cache now
    rfl

/-- Witness for C7 on empty registries and a token-less IONOS adapter. -/
theorem c7_zero_accounts_sentinel_witness :
    awsListDomains [] (fun _ => .thrown) ⟨30000, []⟩ 0 = ([awsNoAccountDomain], ⟨30000, []⟩) ∧
    googleListDomains [] (fun _ => .thrown) ⟨30000, []⟩ 0 =
      ([googleNoAccountDomain], ⟨30000, []⟩) ∧
    cloudflareListDomains [] (fun _ => .thrown) ⟨30000, []⟩ 0 =
      ([cloudflareNoAccountDomain], ⟨30000, []⟩) ∧
    hetznerListServers [] (fun _ => .thrown) ⟨30000, []⟩ 0 =
      ([hetznerNoAccountServer], ⟨30000, []⟩) ∧
    ionosListDomains none [] ⟨30000, []⟩ 0 = ([ionosNoTokenDomain], ⟨30000, []⟩) :=
  ⟨c7_zero_accounts_sentinel.1 [] (fun _ => .thrown) ⟨30000, []⟩ 0 (by decide),
   c7_zero_accounts_sentinel.2.1 [] (fun _ => .thrown) ⟨30000, []⟩ 0 (by decide),
   c7_zero_accounts_sentinel.2.2.1 [] (fun _ => .thrown) ⟨30000, []⟩ 0 (by decide),
   c7_zero_accounts_sentinel.2.2.2.1 [] (fun _ => .thrown) ⟨30000, []⟩ 0 (by decide),
   c7_zero_accounts_sentinel.2.2.2.2.1 [] ⟨30000, []⟩ 0⟩

/-- C7 as stated is false for the IONOS adapter: with no credential configured
its `listDomains` returns one sentinel whose id is `__no_token__`, which is not
the reserved `no-account` tag (nor prefixed by it). -/
theorem c7_ionos_counterexample :
    (ionosListDomains none [] ⟨30000, []⟩ 0).1 = [ionosNoTokenDomain] ∧
    ionosNoTokenDomain.id = str "__no_token__" ∧
    ionosNoTokenDomain.id ≠ str "__no_account__" ∧
    ionosNoTokenDomain.id.take (str "__no_account__").length ≠ str "__no_account__" := by
  refine ⟨rfl, rfl, by decide, by decide⟩

/-! ## Claim C6: packed record-id round-trips -/

/-- A string without the separator splits to itself. -/
theorem splitOnColons_single (a : Str) (ha : ':' ∉ a) : splitOnColons a = [a] := by
  induction a with
  | nil => rfl
  | cons c rest ih =>
    have hc : c ≠ ':' := fun h => ha (by simp [h])
    cases rest with
    | nil => rfl
    | cons d rest2 =>
      have hr := ih (fun h => ha (by simp [h]))
      rw [splitOnColons, if_neg (by simp [hc]), hr]

/-- Splitting off a colon-free prefix before a `::` separator. -/
theorem splitOnColons_append (a b : Str) (ha : ':' ∉ a) :
    splitOnColons (a ++ ':' :: ':' :: b) = a :: splitOnColons b := by
  induction a with
  | nil => rw [List.nil_append, splitOnColons, if_pos ⟨rfl, rfl⟩]
  | cons c rest ih =>
    have hc : c ≠ ':' := fun h => ha (by simp [h])
    have hr := ih (fun h => ha (by simp [h]))
    cases rest with
    | nil =>
      rw [List.cons_append, List.nil_append, splitOnColons, if_neg (by simp [hc]),
        splitOnColons, if_pos ⟨rfl, rfl⟩]
    | cons d rest2 =>
      rw [List.cons_append] at hr
      rw [List.cons_append, List.cons_append, splitOnColons, if_neg (by simp [hc]), hr]

/-- `lastIndexOfAux` over a concatenation. -/
theorem lastIndexOfAux_append (c : Char) (l1 l2 : Str) (i : Nat) (acc : Option Nat) :
    lastIndexOfAux c (l1 ++ l2) i acc =
      lastIndexOfAux c l2 (i + l1.length) (lastIndexOfAux c l1 i acc) := by
  induction l1 generalizing i acc with
  | nil => simp [lastIndexOfAux]
  | cons x rest ih =>
    rw [List.cons_append, lastIndexOfAux, ih, lastIndexOfAux]
    congr 1
    rw [List.length_cons]
    omega

/-- `lastIndexOfAux` over a character-free list keeps its accumulator. -/
theorem lastIndexOfAux_notMem (c : Char) (l : Str) (i : Nat) (acc : Option Nat)
    (h : c ∉ l) : lastIndexOfAux c l i acc = acc := by
  induction l generalizing i acc with
  | nil => rfl
  | cons x rest ih =>
    rw [lastIndexOfAux, if_neg (fun hx => h (by simp [hx.symm])), ih _ _
      (fun hx => h (by simp [hx]))]

/-- The last dash of `name-type` is the separator when the type is dash-free. -/
theorem lastIndexOf_sep (name rType : Str) (ht : '-' ∉ rType) :
    lastIndexOf '-' (awsRecordId name rType) = some name.length := by
  unfold lastIndexOf awsRecordId
  rw [lastIndexOfAux_append, lastIndexOfAux, if_pos rfl,
    lastIndexOfAux_notMem '-' rType _ _ ht]
  simp

/-- The AWS `name-type` codec round-trips for dash-free types. -/
theorem awsDecodeRecordId_roundtrip (name rType : Str) (ht : '-' ∉ rType) :
    awsDecodeRecordId (awsRecordId name rType) = (name, rType) := by
  unfold awsDecodeRecordId
  rw [lastIndexOf_sep name rType ht]
  unfold awsRecordId
  have h1 : List.take name.length (name ++ '-' :: rType) = name := List.take_left' rfl
  have h2 : List.drop (name.length + 1) (name ++ '-' :: rType) = rType := by
    rw [show name ++ '-' :: rType = (name ++ ['-']) ++ rType by simp,
      List.drop_left' (by simp)]
  simp [h1, h2]

/-- The Google `zone::name::type` codec round-trips for colon-free parts. -/
theorem googleDecodeRecordId_roundtrip (zoneName rName rType : Str)
    (hz : ':' ∉ zoneName) (hn : ':' ∉ rName) (ht : ':' ∉ rType) :
    googleDecodeRecordId (googleRecordId zoneName rName rType) =
      some (zoneName, rName, rType) := by
  unfold googleDecodeRecordId googleRecordId
  rw [show str "::" = [':', ':'] from rfl]
  have : zoneName ++ [':', ':'] ++ rName ++ [':', ':'] ++ rType =
      zoneName ++ ':' :: ':' :: (rName ++ ':' :: ':' :: rType) := by
    simp
  rw [this, splitOnColons_append _ _ hz, splitOnColons_append _ _ hn,
    splitOnColons_single _ ht]

/-- Every type the Google filter admits is colon-free. -/
theorem googleType_no_colon (t : Str) (h : t ∈ googleSupportedTypes) : ':' ∉ t := by
  simp [googleSupportedTypes] at h
  rcases h with h | h | h | h | h | h <;> subst h <;> decide

/-- Every type the AWS filter admits is dash-free. -/
theorem awsType_no_dash (t : Str) (h : t ∈ awsSupportedTypes) : '-' ∉ t := by
  simp [awsSupportedTypes] at h
  rcases h with h | h | h | h | h | h <;> subst h <;> decide

/-- C6 (amended): for every record id produced by the list operations — Google
packs `zone::name::type` for a filter-admitted type, AWS packs `name-type` —
decoding never fails and re-encoding the decoded components yields the id
byte-for-byte, provided the Google zone and record names are colon-free (as
every legal GCP zone name and DNS record name is; the source does not validate
this); the AWS side needs no such proviso. -/
theorem c6_record_id_roundtrip (zoneName rName gType aName aType : Str)
    (hz : ':' ∉ zoneName) (hn : ':' ∉ rName)
    (hg : gType ∈ googleSupportedTypes) (ha2 : aType ∈ awsSupportedTypes) :
    googleDecodeRecordId (googleRecordId zoneName rName gType) =
      some (zoneName, rName, gType) ∧
    (∀ z n t, googleDecodeRecordId (googleRecordId zoneName rName gType) = some (z, n, t) →
      googleRecordId z n t = googleRecordId zoneName rName gType) ∧
    awsDecodeRecordId (awsRecordId aName aType) = (aName, aType) ∧
    awsRecordId (awsDecodeRecordId (awsRecordId aName aType)).1
        (awsDecodeRecordId (awsRecordId aName aType)).2 = awsRecordId aName aType := by
  have hcolon := googleType_no_colon gType hg
  have hdash := awsType_no_dash aType ha2
  have h1 := googleDecodeRecordId_roundtrip zoneName rName gType hz hn hcolon
  have h2 := awsDecodeRecordId_roundtrip aName aType hdash
  refine ⟨h1, ?_, h2, by rw [h2]⟩
  intro z n t h
  rw [h1] at h
  simp at h
  obtain ⟨rfl, rfl, rfl⟩ := h
  rfl

/-- Witness for C6 on realistic zone/record names. -/
theorem c6_record_id_roundtrip_witness :
    googleDecodeRecordId (googleRecordId (str "my-zone") (str "www.example.com.")
        (str "A")) = some (str "my-zone", str "www.example.com.", str "A") ∧
    (∀ z n t, googleDecodeRecordId (googleRecordId (str "my-zone")
        (str "www.example.com.") (str "A")) = some (z, n, t) →
      googleRecordId z n t =
        googleRecordId (str "my-zone") (str "www.example.com.") (str "A")) ∧
    awsDecodeRecordId (awsRecordId (str "www.example.com.") (str "CNAME")) =
      (str "www.example.com.", str "CNAME") ∧
    awsRecordId
        (awsDecodeRecordId (awsRecordId (str "www.example.com.") (str "CNAME"))).1
        (awsDecodeRecordId (awsRecordId (str "www.example.com.") (str "CNAME"))).2 =
      awsRecordId (str "www.example.com.") (str "CNAME") :=
  c6_record_id_roundtrip (str "my-zone") (str "www.example.com.") (str "A")
    (str "www.example.com.") (str "CNAME") (by decide) (by decide) (by decide) (by decide)

/-- C6 as stated is false: an upstream zone named `z::w` (which the source does
not reject) yields a record id whose decoding fails — `split('::')` sees four
parts, so `updateRecord` would throw — even though the type `A` passes the
list filter. -/
theorem c6_google_colon_counterexample :
    (str "A") ∈ googleSupportedTypes ∧
    googleDecodeRecordId (googleRecordId (str "z::w") (str "n") (str "A")) = none :=
  ⟨by decide, by decide⟩

/-! ## Claim C5: structure of the Google JWT assertion -/

/-- Every character code is a valid Unicode scalar value. -/
theorem char_toNat_lt (c : Char) : c.toNat < 1114112 := by
  have h := c.valid
  rcases h with h | ⟨h1, h2⟩
  · unfold Char.toNat; omega
  · unfold Char.toNat; omega

/-- UTF-8 encodes into bytes. -/
theorem utf8Char_lt (c : Char) : ∀ b ∈ utf8Char c, b < 256 := by
  have hv := char_toNat_lt c
  intro b hb
  unfold utf8Char at hb
  simp only [] at hb
  split_ifs at hb with h1 h2 h3
  · simp at hb; omega
  · simp at hb; rcases hb with rfl | rfl <;> omega
  · simp at hb; rcases hb with rfl | rfl | rfl <;> omega
  · simp at hb; rcases hb with rfl | rfl | rfl | rfl <;> omega

/-- UTF-8 encodes a string into bytes. -/
theorem utf8_lt (s : Str) : ∀ b ∈ utf8 s, b < 256 := by
  intro b hb
  unfold utf8 at hb
  rw [List.mem_flatMap] at hb
  obtain ⟨c, _, hbc⟩ := hb
  exact utf8Char_lt c b hbc

/-- Value/no-padding/no-dot table for the url rewrite of base64 digits. -/
theorem b64_table : ∀ n ∈ List.range 64,
    b64UrlVal (b64UrlChar (base64Char n)) = n ∧ b64UrlChar (base64Char n) ≠ '=' ∧
    b64UrlChar (base64Char n) ≠ '.' := by
  decide

/-- Decoding inverts the url rewrite on each base64 digit. -/
theorem b64_val (n : Nat) (h : n < 64) : b64UrlVal (b64UrlChar (base64Char n)) = n :=
  (b64_table n (List.mem_range.mpr h)).1

/-- The url rewrite of a base64 digit is never the padding character. -/
theorem b64_ne_pad (n : Nat) (h : n < 64) : b64UrlChar (base64Char n) ≠ '=' :=
  (b64_table n (List.mem_range.mpr h)).2.1

/-- `base64urlDecode` inverts the encoder on byte input. -/
theorem b64_roundtrip (bs : Bytes) (h : ∀ b ∈ bs, b < 256) :
    base64urlDecode (b64UrlOfStd (base64Std bs)) = bs := by
  induction bs using base64Std.induct with
  | case1 => rfl
  | case2 b1 =>
    have hb1 : b1 < 256 := h b1 (by simp)
    have h1 : b1 / 4 < 64 := by omega
    have h2 : b1 % 4 * 16 < 64 := by omega
    simp only [base64Std, b64UrlOfStd, List.map_cons, List.map_nil, List.filter_cons,
      List.filter_nil, bne_iff_ne, ne_eq, b64_ne_pad _ h1, b64_ne_pad _ h2,
      not_false_eq_true, if_pos, if_true]
    norm_num
    simp only [base64urlDecode, b64_val _ h1, b64_val _ h2, List.cons.injEq, and_true]
    omega
  | case3 b1 b2 =>
    have hb1 : b1 < 256 := h b1 (by simp)
    have hb2 : b2 < 256 := h b2 (by simp)
    have h1 : b1 / 4 < 64 := by omega
    have h2 : b1 % 4 * 16 + b2 / 16 < 64 := by omega
    have h3 : b2 % 16 * 4 < 64 := by omega
    simp only [base64Std, b64UrlOfStd, List.map_cons, List.map_nil, List.filter_cons,
      List.filter_nil, bne_iff_ne, ne_eq, b64_ne_pad _ h1, b64_ne_pad _ h2, b64_ne_pad _ h3,
      not_false_eq_true, if_pos, if_true]
    norm_num
    simp only [base64urlDecode, b64_val _ h1, b64_val _ h2, b64_val _ h3, List.cons.injEq,
      and_true]
    exact ⟨by omega, by omega⟩
  | case4 b1 b2 b3 rest ih =>
    have hb1 : b1 < 256 := h b1 (by simp)
    have hb2 : b2 < 256 := h b2 (by simp)
    have hb3 : b3 < 256 := h b3 (by simp)
    have h1 : b1 / 4 < 64 := by omega
    have h2 : b1 % 4 * 16 + b2 / 16 < 64 := by omega
    have h3 : b2 % 16 * 4 + b3 / 64 < 64 := by omega
    have h4 : b3 % 64 < 64 := by omega
    have ihr := ih (fun b hb => h b (by simp [hb]))
    simp only [base64Std, b64UrlOfStd, List.map_cons, List.filter_cons, bne_iff_ne, ne_eq,
      b64_ne_pad _ h1, b64_ne_pad _ h2, b64_ne_pad _ h3, b64_ne_pad _ h4,
      not_false_eq_true, if_pos, if_true]
    simp only [b64UrlOfStd] at ihr
    rw [base64urlDecode]
    rw [ihr]
    simp only [b64_val _ h1, b64_val _ h2, b64_val _ h3, b64_val _ h4, List.cons.injEq]
    exact ⟨by omega, by omega, by omega, trivial⟩

/-- Every base64 digit lies in the standard alphabet. -/
theorem base64Char_mem_alpha (n : Nat) : base64Char n ∈ base64Alphabet := by
  unfold base64Char
  rcases hx : base64Alphabet[n]? with _ | x
  · rw [List.getD_eq_getElem?_getD, hx]
    decide
  · rw [List.getD_eq_getElem?_getD, hx]
    exact List.getElem?_mem hx

/-- Standard base64 output is alphabet characters and padding. -/
theorem mem_base64Std (bs : Bytes) : ∀ x ∈ base64Std bs, x ∈ base64Alphabet ∨ x = '=' := by
  induction bs using base64Std.induct with
  | case1 => simp [base64Std]
  | case2 b1 =>
    intro x hx
    simp only [base64Std, List.mem_cons, List.not_mem_nil, or_false] at hx
    rcases hx with rfl | rfl | rfl | rfl
    · exact Or.inl (base64Char_mem_alpha _)
    · exact Or.inl (base64Char_mem_alpha _)
    · exact Or.inr rfl
    · exact Or.inr rfl
  | case3 b1 b2 =>
    intro x hx
    simp only [base64Std, List.mem_cons, List.not_mem_nil, or_false] at hx
    rcases hx with rfl | rfl | rfl | rfl
    · exact Or.inl (base64Char_mem_alpha _)
    · exact Or.inl (base64Char_mem_alpha _)
    · exact Or.inl (base64Char_mem_alpha _)
    · exact Or.inr rfl
  | case4 b1 b2 b3 rest ih =>
    intro x hx
    simp only [base64Std, List.mem_cons] at hx
    rcases hx with rfl | rfl | rfl | rfl | hx
    · exact Or.inl (base64Char_mem_alpha _)
    · exact Or.inl (base64Char_mem_alpha _)
    · exact Or.inl (base64Char_mem_alpha _)
    · exact Or.inl (base64Char_mem_alpha _)
    · exact ih x hx

/-- The url rewrite maps the standard alphabet into the url alphabet. -/
theorem b64UrlChar_mem_of_std : ∀ x ∈ base64Alphabet, b64UrlChar x ∈ base64UrlAlphabet := by
  decide

/-- The url rewrite of base64 text (alphabet plus padding) is url-alphabet
characters only. -/
theorem mem_b64UrlOfStd (s : Str) (hs : ∀ x ∈ s, x ∈ base64Alphabet ∨ x = '=') :
    ∀ c ∈ b64UrlOfStd s, c ∈ base64UrlAlphabet := by
  intro c hc
  unfold b64UrlOfStd at hc
  rw [List.mem_filter, List.mem_map] at hc
  obtain ⟨⟨x, hxs, rfl⟩, hne⟩ := hc
  rcases hs x hxs with hmem | rfl
  · exact b64UrlChar_mem_of_std x hmem
  · simp [b64UrlChar] at hne

/-- `base64urlEncode` emits url-alphabet characters only (no padding). -/
theorem mem_base64urlEncode (s : Str) : ∀ c ∈ base64urlEncode s, c ∈ base64UrlAlphabet :=
  mem_b64UrlOfStd _ (mem_base64Std _)

/-- Url-alphabet text never contains the JWT part separator. -/
theorem no_dot (s : Str) (h : ∀ c ∈ s, c ∈ base64UrlAlphabet) : '.' ∉ s := by
  intro hd
  have := h '.' hd
  revert this
  decide

/-- A separator-free string splits to itself. -/
theorem splitOnChar_single (sep : Char) (a : Str) (ha : sep ∉ a) :
    splitOnChar sep a = [a] := by
  induction a with
  | nil => rfl
  | cons c rest ih =>
    have hc : c ≠ sep := fun h => ha (by simp [h])
    rw [splitOnChar, if_neg hc, ih (fun h => ha (by simp [h]))]

/-- Splitting off a separator-free prefix. -/
theorem splitOnChar_append (sep : Char) (a b : Str) (ha : sep ∉ a) :
    splitOnChar sep (a ++ sep :: b) = a :: splitOnChar sep b := by
  induction a with
  | nil => rw [List.nil_append, splitOnChar, if_pos rfl]
  | cons c rest ih =>
    have hc : c ≠ sep := fun h => ha (by simp [h])
    have hr := ih (fun h => ha (by simp [h]))
    rw [List.cons_append, splitOnChar, if_neg hc, hr]

/-- C5 (amended): for every service-account key (its `client_email` and
`token_uri`) and every time `now`, the generated assertion splits on `.` into
exactly three parts, each made of unpadded base64url characters only (assuming
the external RSA signer returns base64 text), and base64url-decoding the first
two parts reproduces exactly the UTF-8 bytes of the header
`{"alg":"RS256","typ":"JWT"}` and of the claim set
`{iss, scope: "https://www.googleapis.com/auth/cloud-platform", aud,
iat: now, exp: now + 3600}` — so `exp` equals `iat + 3600`. -/
theorem c5_google_jwt_structure (clientEmail tokenUri : Str) (now : Nat)
    (rsaSignBase64 : Str → Str)
    (hsig : ∀ c ∈ rsaSignBase64 (base64urlEncode googleJwtHeaderJson ++ '.' ::
        base64urlEncode (googleJwtPayloadJson clientEmail tokenUri now)),
      c ∈ base64Alphabet ∨ c = '=') :
    splitOnChar '.' (createJwt googleJwtHeaderJson
        (googleJwtPayloadJson clientEmail tokenUri now) rsaSignBase64) =
      [base64urlEncode googleJwtHeaderJson,
       base64urlEncode (googleJwtPayloadJson clientEmail tokenUri now),
       b64UrlOfStd (rsaSignBase64 (base64urlEncode googleJwtHeaderJson ++ '.' ::
         base64urlEncode (googleJwtPayloadJson clientEmail tokenUri now)))] ∧
    (∀ part ∈ splitOnChar '.' (createJwt googleJwtHeaderJson
        (googleJwtPayloadJson clientEmail tokenUri now) rsaSignBase64),
      ∀ c ∈ part, c ∈ base64UrlAlphabet) ∧
    base64urlDecode (base64urlEncode googleJwtHeaderJson) = utf8 googleJwtHeaderJson ∧
    base64urlDecode (base64urlEncode (googleJwtPayloadJson clientEmail tokenUri now)) =
      utf8 (googleJwtClaimSetJson clientEmail tokenUri now (now + 3600)) := by
  have hd1 := no_dot _ (mem_base64urlEncode googleJwtHeaderJson)
  have hd2 := no_dot _ (mem_base64urlEncode (googleJwtPayloadJson clientEmail tokenUri now))
  have hsig' := mem_b64UrlOfStd _ hsig
  have hd3 := no_dot _ hsig'
  have hsplit : splitOnChar '.' (createJwt googleJwtHeaderJson
      (googleJwtPayloadJson clientEmail tokenUri now) rsaSignBase64) =
      [base64urlEncode googleJwtHeaderJson,
       base64urlEncode (googleJwtPayloadJson clientEmail tokenUri now),
       b64UrlOfStd (rsaSignBase64 (base64urlEncode googleJwtHeaderJson ++ '.' ::
         base64urlEncode (googleJwtPayloadJson clientEmail tokenUri now)))] := by
    unfold createJwt
    rw [show (base64urlEncode googleJwtHeaderJson ++ '.' ::
        base64urlEncode (googleJwtPayloadJson clientEmail tokenUri now)) ++ '.' ::
        b64UrlOfStd (rsaSignBase64 (base64urlEncode googleJwtHeaderJson ++ '.' ::
          base64urlEncode (googleJwtPayloadJson clientEmail tokenUri now))) =
        base64urlEncode googleJwtHeaderJson ++ '.' ::
        (base64urlEncode (googleJwtPayloadJson clientEmail tokenUri now) ++ '.' ::
          b64UrlOfStd (rsaSignBase64 (base64urlEncode googleJwtHeaderJson ++ '.' ::
            base64urlEncode (googleJwtPayloadJson clientEmail tokenUri now)))) by simp,
      splitOnChar_append '.' _ _ hd1, splitOnChar_append '.' _ _ hd2,
      splitOnChar_single '.' _ hd3]
  refine ⟨hsplit, ?_, ?_, ?_⟩
  · rw [hsplit]
    intro part hp
    simp only [List.mem_cons, List.not_mem_nil, or_false] at hp
    rcases hp with rfl | rfl | rfl
    · exact mem_base64urlEncode googleJwtHeaderJson
    · exact mem_base64urlEncode (googleJwtPayloadJson clientEmail tokenUri now)
    · exact hsig'
  · exact b64_roundtrip _ (utf8_lt googleJwtHeaderJson)
  · exact b64_roundtrip _ (utf8_lt (googleJwtPayloadJson clientEmail tokenUri now))

/-- Witness for C5 at a concrete key and a base64 signature stub. -/
theorem c5_google_jwt_structure_witness :
    splitOnChar '.' (createJwt googleJwtHeaderJson
        (googleJwtPayloadJson (str "a@b.c") (str "https://t") 0) (fun _ => str "AB+/=")) =
      [base64urlEncode googleJwtHeaderJson,
       base64urlEncode (googleJwtPayloadJson (str "a@b.c") (str "https://t") 0),
       b64UrlOfStd ((fun _ => str "AB+/=") (base64urlEncode googleJwtHeaderJson ++ '.' ::
         base64urlEncode (googleJwtPayloadJson (str "a@b.c") (str "https://t") 0)))] ∧
    (∀ part ∈ splitOnChar '.' (createJwt googleJwtHeaderJson
        (googleJwtPayloadJson (str "a@b.c") (str "https://t") 0) (fun _ => str "AB+/=")),
      ∀ c ∈ part, c ∈ base64UrlAlphabet) ∧
    base64urlDecode (base64urlEncode googleJwtHeaderJson) = utf8 googleJwtHeaderJson ∧
    base64urlDecode (base64urlEncode (googleJwtPayloadJson (str "a@b.c")
        (str "https://t") 0)) =
      utf8 (googleJwtClaimSetJson (str "a@b.c") (str "https://t") 0 (0 + 3600)) :=
  c5_google_jwt_structure (str "a@b.c") (str "https://t") 0 (fun _ => str "AB+/=")
    (by decide)

set_option maxRecDepth 40000 in
/-- C5 as stated is false in one detail: the decoded claim set carries the full
scope URL `https://www.googleapis.com/auth/cloud-platform`, not the literal
`"cloud-platform"`; at a concrete key and time the decoded second part differs
from the spec-worded claim set and equals the full-URL one. -/
theorem c5_google_jwt_scope_counterexample :
    base64urlDecode ((splitOnChar '.' (createJwt googleJwtHeaderJson
        (googleJwtPayloadJson (str "svc@proj.iam.gserviceaccount.com")
          (str "https://oauth2.googleapis.com/token") 1700000000)
        (fun _ => str "c2ln"))).getD 1 []) ≠
      utf8 (googleJwtClaimSetJsonSpec (str "svc@proj.iam.gserviceaccount.com")
        (str "https://oauth2.googleapis.com/token") 1700000000 (1700000000 + 3600)) ∧
    base64urlDecode ((splitOnChar '.' (createJwt googleJwtHeaderJson
        (googleJwtPayloadJson (str "svc@proj.iam.gserviceaccount.com")
          (str "https://oauth2.googleapis.com/token") 1700000000)
        (fun _ => str "c2ln"))).getD 1 []) =
      utf8 (googleJwtClaimSetJson (str "svc@proj.iam.gserviceaccount.com")
        (str "https://oauth2.googleapis.com/token") 1700000000 (1700000000 + 3600)) :=
  ⟨by decide, by decide⟩

/-! ## Claim C8: no resolvable account fails fast without HTTP -/

/-- C8: for each account-based DNS adapter (AWS, Cloudflare, Google), calling
`updateRecord` with no explicit account id and no account of the provider kind
configured fails with the ConfigurationError (`Kein Account konfiguriert`)
before any HTTP request is issued, and no state (cache, token cache) changes. -/
theorem c8_update_record_no_account :
    (∀ (env : UpdateEnv) (accounts : List Account) (cache : SimpleCache (List AwsDomain))
       (domainId recordId newValue : Str) (ttl : Option Nat),
      getByProvider accounts .awsRoute53 = [] →
      awsUpdateRecord env accounts cache domainId recordId newValue ttl none =
        (.error configurationError, [], cache)) ∧
    (∀ (env : CfEnv) (accounts : List Account) (cache : SimpleCache (List CloudflareDomain))
       (domainId recordId newValue : Str) (ttl : Option Nat),
      getByProvider accounts .cloudflare = [] →
      cloudflareUpdateRecord env accounts cache domainId recordId newValue ttl none =
        (.error configurationError, [], cache)) ∧
    (∀ (env : GoogleEnv) (accounts : List Account) (tokenCache : List (Str × (Str × Nat)))
       (cache : SimpleCache (List GoogleDomain)) (domainId recordId newValue : Str)
       (ttl : Option Nat),
      getByProvider accounts .googleDns = [] →
      googleUpdateRecord env accounts tokenCache cache domainId recordId newValue ttl none =
        (.error configurationError, [], tokenCache, cache)) := by
  refine ⟨?_, ?_, ?_⟩
  · intro env accounts cache domainId recordId newValue ttl hacc
    unfold awsUpdateRecord getDefaultForProvider
    rw [hacc]
    rfl
  · intro env accounts cache domainId recordId newValue ttl hacc
    unfold cloudflareUpdateRecord getDefaultForProvider
    rw [hacc]
    rfl
  · intro env accounts tokenCache cache domainId recordId newValue ttl hacc
    unfold googleUpdateRecord getDefaultForProvider
    rw [hacc]
    rfl

/-- Witness for C8 on empty registries. -/
theorem c8_update_record_no_account_witness :
    awsUpdateRecord wDummyUpdateEnv [] ⟨30000, []⟩ (str "Z") (str "n-A") (str "v")
        none none = (.error configurationError, [], ⟨30000, []⟩) ∧
    cloudflareUpdateRecord wDummyCfEnv [] ⟨30000, []⟩ (str "Z") (str "r") (str "v")
        none none = (.error configurationError, [], ⟨30000, []⟩) ∧
    googleUpdateRecord wDummyGoogleEnv [] [] ⟨30000, []⟩ (str "Z") (str "z::n::A")
        (str "v") none none = (.error configurationError, [], [], ⟨30000, []⟩) :=
  ⟨c8_update_record_no_account.1 wDummyUpdateEnv [] ⟨30000, []⟩ (str "Z") (str "n-A")
     (str "v") none (by decide),
   c8_update_record_no_account.2.1 wDummyCfEnv [] ⟨30000, []⟩ (str "Z") (str "r")
     (str "v") none (by decide),
   c8_update_record_no_account.2.2 wDummyGoogleEnv [] [] ⟨30000, []⟩ (str "Z")
     (str "z::n::A") (str "v") none (by decide)⟩

/-! ## Claim C9: AWS error classification on the two cited paths -/

/-- C9 (amended): on the `listDomains` zone-list fetch, an upstream 401/403 is
classified as the authentication failure and any other non-2xx as the generic
API failure carrying provider name, status code and status text (but no body);
on the `updateRecord` write path every non-2xx — including 401 and 403 — is
classified as the generic API failure carrying provider name, status code,
status text and body. -/
theorem c9_aws_error_classification :
    (∀ (env : AwsListEnv) (account : Account) (credentials akid skey : Str)
       (resp : HttpResponse),
      parseCredentials credentials = some (akid, skey) →
      env.http = (fun _ => resp) →
      respOk resp.status = false →
      (isAuthErrorStatus resp.status = true →
        (awsFetchDomainsForAccount env account credentials).1 =
          .error (.authError (str "AWS Route 53"))) ∧
      (isAuthErrorStatus resp.status = false →
        (awsFetchDomainsForAccount env account credentials).1 =
          .error (.apiError (str "AWS Route 53") resp.status resp.statusText none))) ∧
    (∀ (env : UpdateEnv) (accounts : List Account) (cache : SimpleCache (List AwsDomain))
       (domainId recordId newValue : Str) (ttl : Option Nat) (accountId : Option Str)
       (acc : Account) (creds akid skey : Str) (resp : HttpResponse),
      (match accountId with
        | some i => getById accounts i
        | none => getDefaultForProvider accounts .awsRoute53) = some acc →
      env.getToken acc.id = some creds →
      parseCredentials creds = some (akid, skey) →
      env.http = (fun _ => resp) →
      respOk resp.status = false →
      (awsUpdateRecord env accounts cache domainId recordId newValue ttl accountId).1 =
        .error (.apiError (str "AWS Route 53") resp.status resp.statusText
          (some resp.body))) := by
  constructor
  · intro env account credentials akid skey resp hcred hhttp hnok
    constructor
    · intro hauth
      unfold awsFetchDomainsForAccount
      simp only [hcred, hhttp, hnok, hauth]
      rfl
    · intro hauth
      unfold awsFetchDomainsForAccount
      simp only [hcred, hhttp, hnok, hauth]
      rfl
  · intro env accounts cache domainId recordId newValue ttl accountId acc creds akid skey
      resp hacc htok hcred hhttp hnok
    unfold awsUpdateRecord
    rw [hacc]
    simp only [htok, hcred, hhttp, hnok]
    rfl

/-- Witness for C9: 403 and 500 on the list path, 500 on the write path. -/
theorem c9_aws_error_classification_witness :
    ((isAuthErrorStatus 403 = true →
      (awsFetchDomainsForAccount wC9ListEnv403 wC9Account (str "AKID:SECRET")).1 =
        .error (.authError (str "AWS Route 53"))) ∧
     (isAuthErrorStatus 403 = false →
      (awsFetchDomainsForAccount wC9ListEnv403 wC9Account (str "AKID:SECRET")).1 =
        .error (.apiError (str "AWS Route 53") 403 (str "Forbidden") none))) ∧
    ((isAuthErrorStatus 500 = true →
      (awsFetchDomainsForAccount wC9ListEnv500 wC9Account (str "AKID:SECRET")).1 =
        .error (.authError (str "AWS Route 53"))) ∧
     (isAuthErrorStatus 500 = false →
      (awsFetchDomainsForAccount wC9ListEnv500 wC9Account (str "AKID:SECRET")).1 =
        .error (.apiError (str "AWS Route 53") 500 (str "Server Error") none))) ∧
    (awsUpdateRecord wC9UpdateEnv500 [wC9Account] ⟨30000, []⟩ (str "Z1")
        (str "www.example.com-A") (str "1.2.3.4") none none).1 =
      .error (.apiError (str "AWS Route 53") 500 (str "Server Error")
        (some (str "boom"))) :=
  ⟨c9_aws_error_classification.1 wC9ListEnv403 wC9Account (str "AKID:SECRET")
     (str "AKID") (str "SECRET") ⟨403, str "Forbidden", str ""⟩ (by decide) rfl (by decide),
   c9_aws_error_classification.1 wC9ListEnv500 wC9Account (str "AKID:SECRET")
     (str "AKID") (str "SECRET") ⟨500, str "Server Error", str ""⟩ (by decide) rfl
     (by decide),
   c9_aws_error_classification.2 wC9UpdateEnv500 [wC9Account] ⟨30000, []⟩ (str "Z1")
     (str "www.example.com-A") (str "1.2.3.4") none none wC9Account (str "AKID:SECRET")
     (str "AKID") (str "SECRET") ⟨500, str "Server Error", str "boom"⟩ (by decide) rfl
     (by decide) rfl (by decide)⟩

/-- C9 as stated is false on the write path: a 401 from `updateRecord`'s POST
is classified as the generic `ApiError`, not as an authentication failure. -/
theorem c9_aws_update_401_counterexample :
    (awsUpdateRecord wC9UpdateEnv401 [wC9Account] ⟨30000, []⟩ (str "Z1")
        (str "www.example.com-A") (str "1.2.3.4") none none).1 =
      .error (.apiError (str "AWS Route 53") 401 (str "Unauthorized")
        (some (str "denied"))) ∧
    (∀ p, ProviderError.apiError (str "AWS Route 53") 401 (str "Unauthorized")
        (some (str "denied")) ≠ .authError p) :=
  ⟨rfl, fun _ h => ProviderError.noConfusion h⟩

end DevOpsTool
